import Mathlib

/-
Verification of the remote-configuration reconciliation engine
(`thingsboard_gateway/tb_utility/tb_gateway_remote_configurator.py`,
class `RemoteConfigurator`).

The Python code is shallowly embedded as follows.

* JSON-like Python values (the payloads of attribute updates, the stored
  configuration dictionaries, file contents) are modelled by `JVal`;
  Python `dict`s are association lists (`JObj`) whose keys are unique in
  all states we construct.  Python `d.update(other)` is `dictUpdate`,
  `d[k]` is `jget`/`pyIdx` (raising `KeyError` when absent), `d.get(k, v)`
  is `jgetD`, `d.pop(k)` is `jdel` guarded by presence.  Equality of
  embedded values is structural equality of `JVal`; the dictionaries the
  engine compares are built with a consistent key order, so this models
  Python `==` on them.

* Python exceptions are `PyErr`; fallible code runs in the monad
  `Cfg α := GW → Except PyErr α × GW`, i.e. explicit state passing over
  the mutable world `GW` with exception propagation.  State mutations
  performed before an exception is raised persist, as in Python.
  `Cfg.tryCatch` models `try/except Exception`.

* `GW` collects the mutable state touched by the configurator: the
  configuration store (`thingsboard`/`storage`/`grpc`/`connectors` keys
  of `self._config`), the `in_process` flag, the gateway's event-storage
  backend (an opaque instance id), the set of live connector instances
  (`available_connectors`, by name), the configuration files on disk
  (path → parsed JSON content), the backup files written, the attributes
  acknowledged upstream (`send_attributes` calls, in order), the gateway
  side effects that are opaque to this component (connector reload,
  service re-initialisation, …) recorded as `GEvent`s, and a ghost list
  `invocations` recording which handler the dispatcher invoked for which
  attribute key (pure instrumentation, written only at the dispatch
  site of `process_config_request`).

* Read-only collaborators live in `Env`: the config-directory path
  `cp`, file modification times as seen by `os.path.getmtime` (in
  milliseconds, as the code computes `int(mtime * 1000)`), the content
  key `ck` standing for Python's `hash(str(·))` used by the connector
  handler, the storage-backend factory (`event_storage_types[t](cfg)`),
  and success oracles for the external services the handlers
  re-initialise (`init_statistics_service`, …).
-/

/-- A JSON-like Python value: `None`, booleans, numbers, strings, lists
and dictionaries.  Numbers are integers (the engine only compares
timestamps, ports and flags). -/
inductive JVal where
  | null
  | bool (b : Bool)
  | num (n : Int)
  | str (s : String)
  | arr (xs : List JVal)
  | obj (fields : List (String × JVal))
deriving Repr

/-- A Python dictionary, as an association list with unique keys. -/
abbrev JObj := List (String × JVal)

mutual

/-- Structural boolean equality on `JVal` (models Python `==` on the
values the engine compares; dictionaries are built with a consistent
key order throughout). -/
def JVal.beq : JVal → JVal → Bool
  | .null, .null => true
  | .bool a, .bool b => a == b
  | .num a, .num b => a == b
  | .str a, .str b => a == b
  | .arr a, .arr b => JVal.beqList a b
  | .obj a, .obj b => JVal.beqObj a b
  | _, _ => false

/-- Pointwise `JVal.beq` on lists. -/
def JVal.beqList : List JVal → List JVal → Bool
  | [], [] => true
  | x :: xs, y :: ys => JVal.beq x y && JVal.beqList xs ys
  | _, _ => false

/-- Pointwise `JVal.beq` on association lists. -/
def JVal.beqObj : List (String × JVal) → List (String × JVal) → Bool
  | [], [] => true
  | (k, v) :: xs, (k2, v2) :: ys => k == k2 && JVal.beq v v2 && JVal.beqObj xs ys
  | _, _ => false

end

mutual

theorem JVal.beq_iff : ∀ a b : JVal, JVal.beq a b = true ↔ a = b
  | .null, b => by cases b <;> simp [JVal.beq]
  | .bool a, b => by cases b <;> simp [JVal.beq]
  | .num a, b => by cases b <;> simp [JVal.beq]
  | .str a, b => by cases b <;> simp [JVal.beq]
  | .arr a, b => by
      cases b <;> simp [JVal.beq]
      exact JVal.beqList_iff a _
  | .obj a, b => by
      cases b <;> simp [JVal.beq]
      exact JVal.beqObj_iff a _

theorem JVal.beqList_iff : ∀ a b : List JVal, JVal.beqList a b = true ↔ a = b
  | [], b => by cases b <;> simp [JVal.beqList]
  | x :: xs, b => by
      cases b with
      | nil => simp [JVal.beqList]
      | cons y ys =>
          simp [JVal.beqList, JVal.beq_iff x y, JVal.beqList_iff xs ys]

theorem JVal.beqObj_iff : ∀ a b : List (String × JVal), JVal.beqObj a b = true ↔ a = b
  | [], b => by cases b <;> simp [JVal.beqObj]
  | (k, v) :: xs, b => by
      cases b with
      | nil => simp [JVal.beqObj]
      | cons y ys =>
          obtain ⟨k2, v2⟩ := y
          simp [JVal.beqObj, JVal.beq_iff v v2, JVal.beqObj_iff xs ys]

end

instance : DecidableEq JVal := fun a b =>
  decidable_of_iff (JVal.beq a b = true) (JVal.beq_iff a b)

/-- `d.get(k)`: the value stored under `k`, if any (first occurrence). -/
def jget (o : JObj) (k : String) : Option JVal :=
  (o.find? (fun p => p.1 = k)).map (fun p => p.2)

/-- `d.get(k, dflt)`. -/
def jgetD (o : JObj) (k : String) (dflt : JVal) : JVal :=
  (jget o k).getD dflt

/-- `k in d`. -/
def hasKey (o : JObj) (k : String) : Bool :=
  (jget o k).isSome

/-- `d[k] = v`: replace in place if present, else append (Python
insertion-order semantics). -/
def jset (o : JObj) (k : String) (v : JVal) : JObj :=
  if hasKey o k then o.map (fun p => if p.1 = k then (k, v) else p)
  else o ++ [(k, v)]

/-- `d.pop(k, None)`: remove the key if present. -/
def jdel (o : JObj) (k : String) : JObj :=
  o.filter (fun p => p.1 ≠ k)

/-- `d.update(other)`: assign every key of `other` into `d`. -/
def dictUpdate (o other : JObj) : JObj :=
  other.foldl (fun acc p => jset acc p.1 p.2) o

/-- Python truthiness of a value (`if x:`). -/
def truthy : JVal → Bool
  | .null => false
  | .bool b => b
  | .num n => n != 0
  | .str s => s ≠ ""
  | .arr xs => !xs.isEmpty
  | .obj o => !o.isEmpty

/-- The Python exceptions the engine distinguishes.  `other` stands for
any exception outside the named classes (all are subclasses of
`Exception`, so `try/except Exception` catches every one of them). -/
inductive PyErr where
  | keyError
  | attributeError
  | typeError
  | osError
  | other
deriving DecidableEq, Repr

/-- Does the second character list start with the first? -/
def charsStartWith : List Char → List Char → Bool
  | [], _ => true
  | _ :: _, [] => false
  | x :: xs, y :: ys => x == y && charsStartWith xs ys

/-- Does the second character list contain the first as a contiguous
sub-list? -/
def charsContain (needle : List Char) : List Char → Bool
  | [] => charsStartWith needle []
  | c :: cs => charsStartWith needle (c :: cs) || charsContain needle cs

/-- `needle in haystack` on strings (Python substring containment). -/
def strContains (haystack needle : String) : Bool :=
  charsContain needle.data haystack.data

example : strContains "connector_deleted" "deleted" = true := by decide
example : strContains "general_configuration" "deleted" = false := by decide

/-- Side effects the configurator triggers on collaborators that are
opaque to this component (recorded in order, never inspected). -/
inductive GEvent where
  | applyConnection (ok : Bool)
  | initStatisticsService (cfg : JVal)
  | initDeviceFiltering (cfg : JVal)
  | initRemoteShell (cfg : JVal)
  | initGrpcService (cfg : JVal)
  | closeConnector (name : JVal)
  | loadConnectors
  | connectWithConnectors
  | installRemoteLogHandler
deriving DecidableEq, Repr

/-- Which entry of the ordered `self._handlers` table the dispatcher
selected (`connector` is the trailing catch-all pattern). -/
inductive HandlerId where
  | general
  | storage
  | grpc
  | logs
  | activeConnectors
  | remoteLoggingLevel
  | connector
deriving DecidableEq, Repr

/-- The mutable world of `RemoteConfigurator` and the gateway state it
touches.  `invocations` is ghost instrumentation: the dispatcher appends
`(handler, attribute name)` exactly where `func(request_config)` runs. -/
structure GW where
  in_process : Bool
  thingsboard : JObj
  storage : JObj
  grpc : JObj
  connectors : List JObj
  active_connectors_attr : JVal
  available_connectors : List JVal
  event_storage : Nat
  files : List (String × JVal)
  backups : List (String × JVal)
  acks : List (JVal × JVal)
  events : List GEvent
  invocations : List (HandlerId × String)
deriving DecidableEq, Repr

/-- Read-only collaborators.  `mt p` is `int(os.path.getmtime(p)*1000)`
for an existing file (modification times are stable during one batch);
`ck` is the content key `hash(str(·))` used by the connector handler;
`mk_storage cfg` is `event_storage_types[cfg["type"]](cfg)` (a `KeyError`
on an unknown type and a construction failure reach the same `except`
clause, so they are modelled together); the `*_ok` flags say whether the
corresponding external re-initialisation call succeeds. -/
structure Env where
  cp : String
  mt : String → Option Nat
  ck : JVal → Int
  mk_storage : JVal → Except PyErr Nat
  conn_ok : Bool
  stats_init_ok : Bool
  filter_init_ok : Bool
  shell_init_ok : Bool
  grpc_init_ok : Bool
  logs_dictconfig_ok : Bool

/-- The effect monad: explicit state passing over `GW` with Python
exception propagation.  Mutations made before a raise persist. -/
def Cfg (α : Type) : Type := GW → Except PyErr α × GW

instance : Monad Cfg where
  pure a := fun s => (.ok a, s)
  bind m f := fun s =>
    match m s with
    | (.ok a, s') => f a s'
    | (.error e, s') => (.error e, s')

/-- Run a computation from a concrete world. -/
def Cfg.run {α : Type} (m : Cfg α) (s : GW) : Except PyErr α × GW := m s

/-- `raise e`. -/
def Cfg.throw {α : Type} (e : PyErr) : Cfg α := fun s => (.error e, s)

/-- Read the world. -/
def Cfg.get : Cfg GW := fun s => (.ok s, s)

/-- Mutate the world. -/
def Cfg.modifyGW (f : GW → GW) : Cfg Unit := fun s => (.ok (), f s)

/-- `try: m except Exception: h` (every `PyErr` is an `Exception`). -/
def Cfg.tryCatch {α : Type} (m : Cfg α) (h : PyErr → Cfg α) : Cfg α := fun s =>
  match m s with
  | (.ok a, s') => (.ok a, s')
  | (.error e, s') => h e s'

/-- Lift a pure fallible computation. -/
def Cfg.liftE {α : Type} (e : Except PyErr α) : Cfg α := fun s => (e, s)

theorem Cfg.run_bind {α β : Type} (m : Cfg α) (f : α → Cfg β) (s : GW) :
    Cfg.run (m >>= f) s =
      match Cfg.run m s with
      | (.ok a, s') => Cfg.run (f a) s'
      | (.error e, s') => (.error e, s') := by
  show (match m s with
        | (.ok a, s') => f a s'
        | (.error e, s') => (.error e, s')) =
      (match m s with
       | (.ok a, s') => Cfg.run (f a) s'
       | (.error e, s') => (.error e, s'))
  rcases m s with ⟨a | e, s'⟩ <;> rfl

theorem Cfg.run_pure {α : Type} (a : α) (s : GW) :
    Cfg.run (pure a : Cfg α) s = (.ok a, s) := rfl

theorem Cfg.run_throw {α : Type} (e : PyErr) (s : GW) :
    Cfg.run (Cfg.throw e : Cfg α) s = (.error e, s) := rfl

theorem Cfg.run_get (s : GW) : Cfg.run Cfg.get s = (.ok s, s) := rfl

theorem Cfg.run_modifyGW (f : GW → GW) (s : GW) :
    Cfg.run (Cfg.modifyGW f) s = (.ok (), f s) := rfl

theorem Cfg.run_liftE {α : Type} (e : Except PyErr α) (s : GW) :
    Cfg.run (Cfg.liftE e) s = (e, s) := rfl

theorem Cfg.run_tryCatch {α : Type} (m : Cfg α) (h : PyErr → Cfg α) (s : GW) :
    Cfg.run (Cfg.tryCatch m h) s =
      match Cfg.run m s with
      | (.ok a, s') => (.ok a, s')
      | (.error e, s') => Cfg.run (h e) s' := by
  show (match m s with
        | (.ok a, s') => ((.ok a, s') : Except PyErr α × GW)
        | (.error e, s') => h e s') =
      (match m s with
       | (.ok a, s') => ((.ok a, s') : Except PyErr α × GW)
       | (.error e, s') => Cfg.run (h e) s')
  rcases m s with ⟨a | e, s'⟩ <;> rfl

/-- `v[k]` on a Python value: `KeyError` when the key is absent,
`TypeError` when the receiver is not a dictionary. -/
def pyIdxE (v : JVal) (k : String) : Except PyErr JVal :=
  match v with
  | .obj o =>
      match jget o k with
      | some x => .ok x
      | none => .error .keyError
  | _ => .error .typeError

/-- `v.update(...)` / `v.get(...)` receiver check: `AttributeError` when
the receiver is not a dictionary. -/
def asObjA (v : JVal) : Except PyErr JObj :=
  match v with
  | .obj o => .ok o
  | _ => .error .attributeError

/-- `dict.update(arg)` argument check: `TypeError` when the argument is
not a dictionary. -/
def asObjT (v : JVal) : Except PyErr JObj :=
  match v with
  | .obj o => .ok o
  | _ => .error .typeError

/-- String expected (path concatenation `config_path + v`):
`TypeError` otherwise. -/
def asStrT (v : JVal) : Except PyErr String :=
  match v with
  | .str s => .ok s
  | _ => .error .typeError

/-- Content of an on-disk configuration file, if it exists. -/
def lookupFile (files : List (String × JVal)) (p : String) : Option JVal :=
  (files.find? (fun q => q.1 = p)).map (fun q => q.2)

/-- Overwrite (or create) a file. -/
def setFile (files : List (String × JVal)) (p : String) (v : JVal) : List (String × JVal) :=
  (p, v) :: files.filter (fun q => q.1 ≠ p)

/-- `open(p, 'w')` + `writelines(dumps(v))`: the file ends up holding
the serialisation of `v`. -/
def writeFile (p : String) (v : JVal) : Cfg Unit :=
  Cfg.modifyGW (fun s => { s with files := setFile s.files p v })

/-- `open(p, 'r')` + `load`: `FileNotFoundError` (an `OSError`) when
the file is missing. -/
def readFile (p : String) : Cfg JVal := do
  let s ← Cfg.get
  match lookupFile s.files p with
  | some v => pure v
  | none => Cfg.throw .osError

/-- `send_attributes(..)`: acknowledgement published upstream. -/
def sendAttr (k v : JVal) : Cfg Unit :=
  Cfg.modifyGW (fun s => { s with acks := s.acks ++ [(k, v)] })

/-- Record an opaque gateway side effect. -/
def recordEvent (e : GEvent) : Cfg Unit :=
  Cfg.modifyGW (fun s => { s with events := s.events ++ [e] })

/-- `create_configuration_file_backup(config_data, config_file_name)`:
writes `dumps(config_data)` to
`backup/<config_file_name>_backup_<unix-time>` (the timestamped path is
abstracted to the original file name; one record per call). -/
def create_configuration_file_backup (config_data : JVal) (config_file_name : String) : Cfg Unit :=
  Cfg.modifyGW (fun s => { s with backups := s.backups ++ [(config_file_name, config_data)] })

/-- `self._modifiable_static_attrs`. -/
def modifiable_static_attrs : List (String × String) :=
  [("logs_configuration", "logs.json")]

/-- `RemoteConfigurator.DEFAULT_STATISTICS`. -/
def default_statistics : JObj :=
  [("enable", .bool true), ("statsSendPeriodInSeconds", .num 3600)]

/-- File-name resolution of `_is_modified`:
`config.get('configuration') or self._modifiable_static_attrs.get(attr_name)`,
where a payload without a `.get` method (not a dictionary) raises
`AttributeError`, caught to leave `file_path = None`.  A falsy explicit
value falls back to the static table; a missing static entry gives
`None`. -/
def resolveConfigFile (attr_name : String) (config : JVal) : Option JVal :=
  match config with
  | .obj o =>
      match jget o "configuration" with
      | some v =>
          if truthy v then some v
          else (modifiable_static_attrs.find? (fun p => p.1 = attr_name)).map
            (fun p => JVal.str p.2)
      | none =>
          (modifiable_static_attrs.find? (fun p => p.1 = attr_name)).map
            (fun p => JVal.str p.2)
  | _ => none

/-- The payload timestamp `config.get('ts', 0)` as used in the
comparison with the file's modification time: `none` means the
comparison `ts <= int(mtime*1000)` raises `TypeError` (non-numeric
`ts`); Python booleans compare as 0/1. -/
def tsOf (config : JVal) : Option Int :=
  match config with
  | .obj o =>
      match jget o "ts" with
      | some (.num n) => some n
      | some (.bool b) => some (if b then 1 else 0)
      | some _ => none
      | none => some 0
  | _ => some 0

/-- `RemoteConfigurator._is_modified(attr_name, config)`.  The first
`try` catches only `AttributeError` (leaving no file), the second only
`OSError` (missing file, logged, falls through to `return True`); a
non-string resolved path or a non-numeric timestamp raises `TypeError`
out of the method. -/
def is_modified (env : Env) (attr_name : String) (config : JVal) : Except PyErr Bool :=
  match resolveConfigFile attr_name config with
  | none => .ok true
  | some fp =>
      match fp with
      | .str s =>
          match env.mt (env.cp ++ s) with
          | none => .ok true
          | some m =>
              match tsOf config with
              | some t => if t ≤ (m : Int) then .ok false else .ok true
              | none => .error .typeError
      | _ => .error .typeError

/-- `v.get(k, dflt)` on a Python value (`AttributeError` when the
receiver is not a dictionary). -/
def pyGetD (v : JVal) (k : String) (dflt : JVal) : Except PyErr JVal :=
  match v with
  | .obj o => .ok (jgetD o k dflt)
  | _ => .error .attributeError

/-- The transient keys the `connectors_configuration` property pops from
every entry on each access. -/
def stripConnector (c : JObj) : JObj :=
  jdel (jdel c "config_updated") "config_file_path"

/-- The `connectors_configuration` property: returns
`self._config.get('connectors', [])` after popping the transient keys
from each entry (an in-place mutation of the stored list). -/
def connectors_configuration : Cfg (List JObj) := do
  let s ← Cfg.get
  let cs := s.connectors.map stripConnector
  Cfg.modifyGW (fun s2 => { s2 with connectors := cs })
  pure cs

/-- The summary projection `{'type': c['type'], 'name': c['name'],
'configuration': c['configuration']}` of one connector entry. -/
def projectConnector (c : JObj) : Except PyErr JVal :=
  match jget c "type", jget c "name", jget c "configuration" with
  | some t, some n, some cf =>
      .ok (.obj [("type", t), ("name", n), ("configuration", cf)])
  | _, _, _ => .error .keyError

/-- The list comprehension over `connectors_configuration` of
`_get_general_config_in_local_format`. -/
def projectConnectors : List JObj → Except PyErr (List JVal)
  | [] => .ok []
  | c :: cs => do
      let v ← projectConnector c
      let vs ← projectConnectors cs
      .ok (v :: vs)

/-- `_get_general_config_in_local_format()`. -/
def get_general_config_in_local_format : Cfg JVal := do
  let cs ← connectors_configuration
  let pcs ← Cfg.liftE (projectConnectors cs)
  let s ← Cfg.get
  pure (.obj [("thingsboard", .obj s.thingsboard), ("storage", .obj s.storage),
              ("grpc", .obj s.grpc), ("connectors", .arr pcs)])

/-- `_handle_storage_configuration_update(config)`: save the current
backend, construct the new one (`mk_storage` bundles the
`event_storage_types[config["type"]]` lookup and the constructor call,
whose failures reach the same `except`), restore on error; on success
merge the config into the store, rewrite the general configuration
file and acknowledge. -/
def handle_storage_configuration_update (env : Env) (config : JVal) : Cfg Unit := do
  let old := (← Cfg.get).event_storage
  match env.mk_storage config with
  | .error _ =>
      Cfg.modifyGW (fun s => { s with event_storage := old })
  | .ok inst => do
      Cfg.modifyGW (fun s => { s with event_storage := inst })
      let co ← Cfg.liftE (asObjT config)
      Cfg.modifyGW (fun s => { s with storage := dictUpdate s.storage co })
      let lf ← get_general_config_in_local_format
      writeFile (env.cp ++ "tb_gateway.json") lf
      let s ← Cfg.get
      sendAttr (.str "storage_configuration") (.obj s.storage)

/-- `_check_statistics_configuration_changes(config)` (short-circuit
`or`; the commands file is read only when the stored statistics entry
names one). -/
def check_statistics_configuration_changes (env : Env) (config : JVal) : Cfg Bool := do
  let s ← Cfg.get
  let gsc := jgetD s.thingsboard "statistics" (.obj default_statistics)
  let e1 ← Cfg.liftE (pyIdxE config "enable")
  let e2 ← Cfg.liftE (pyIdxE gsc "enable")
  if e1 ≠ e2 then pure true
  else do
    let p1 ← Cfg.liftE (pyIdxE config "statsSendPeriodInSeconds")
    let p2 ← Cfg.liftE (pyIdxE gsc "statsSendPeriodInSeconds")
    if p1 ≠ p2 then pure true
    else do
      let confPath ← Cfg.liftE (pyGetD gsc "configuration" .null)
      let commands ←
        if truthy confPath then do
          let ps ← Cfg.liftE (asStrT confPath)
          readFile (env.cp ++ ps)
        else pure (.arr [])
      let cc ← Cfg.liftE (pyGetD config "commands" (.arr []))
      pure (cc ≠ commands)

/-- The `except` clause of `_apply_statistics_config`: re-initialise the
statistics service from the stored configuration and report failure.
`config2` is the statistics dictionary as mutated in place so far (the
caller's payload holds an alias to it). -/
def statsExceptPath (config2 : JVal) : Cfg (Bool × JVal) := do
  let s ← Cfg.get
  recordEvent (.initStatisticsService
    (jgetD s.thingsboard "statistics" (.obj default_statistics)))
  pure (false, config2)

/-- Tail of `_apply_statistics_config`: `init_statistics_service`, the
store assignment and `return True`; a failing init lands in the
`except` clause with the mutation already applied. -/
def statsFinishInit (env : Env) (config2 : JVal) : Cfg (Bool × JVal) := do
  recordEvent (.initStatisticsService config2)
  if env.stats_init_ok then do
    Cfg.modifyGW (fun s => { s with thingsboard := jset s.thingsboard "statistics" config2 })
    pure (true, config2)
  else statsExceptPath config2

/-- `_apply_statistics_config(config)`: write the commands file when
commands are present (recording its name into the statistics dictionary
in place), then initialise and commit; any exception lands in
`statsExceptPath`.  Returns `(result, statistics dictionary as mutated
in place)`. -/
def apply_statistics_config (env : Env) (config : JVal) : Cfg (Bool × JVal) := do
  match pyGetD config "commands" (.arr []) with
  | .error _ => statsExceptPath config
  | .ok commands =>
      if truthy commands then do
        let s ← Cfg.get
        match pyIdxE (.obj s.thingsboard) "statistics" with
        | .error _ => statsExceptPath config
        | .ok stats =>
            match pyGetD stats "configuration" (.str "statistics.json") with
            | .error _ => statsExceptPath config
            | .ok fnameV =>
                let fname := if fnameV = .null then JVal.str "statistics.json" else fnameV
                match asStrT fname with
                | .error _ => statsExceptPath config
                | .ok fs => do
                    writeFile (env.cp ++ fs) commands
                    match asObjT config with
                    | .error _ => statsExceptPath config
                    | .ok co =>
                        statsFinishInit env (.obj (jset co "configuration" (.str fs)))
      else statsFinishInit env config

/-- The connection-change test of `_handle_general_configuration_update`
(short-circuit `or` over host/port/security/provisioning/qos; indexing
a missing key raises `KeyError`). -/
def connection_changed (config gen : JObj) : Except PyErr Bool := do
  let a ← pyIdxE (.obj config) "host"
  let b ← pyIdxE (.obj gen) "host"
  if a ≠ b then .ok true
  else do
    let a ← pyIdxE (.obj config) "port"
    let b ← pyIdxE (.obj gen) "port"
    if a ≠ b then .ok true
    else do
      let a ← pyIdxE (.obj config) "security"
      let b ← pyIdxE (.obj gen) "security"
      if a ≠ b then .ok true
      else
        if jgetD config "provisioning" (.obj []) ≠ jgetD gen "provisioning" (.obj [])
        then .ok true
        else do
          let a ← pyIdxE (.obj config) "qos"
          let b ← pyIdxE (.obj gen) "qos"
          .ok (a ≠ b)

/-- Step 1 of `_handle_general_configuration_update`: the connection
sub-change.  `_apply_connection_config` is abstracted by the oracle
`env.conn_ok` (the separately modelled loop `apply_connection_config_loop`
shows the call need not return at all; this models the runs in which it
does, its client-swap side effects being outside `GW`).  On failure the
code runs `config.update(self.general_configuration)`. -/
def general_connection_step (env : Env) (config : JObj) : Cfg JObj := do
  let s ← Cfg.get
  let diff ← Cfg.liftE (connection_changed config s.thingsboard)
  if diff then do
    recordEvent (.applyConnection env.conn_ok)
    if env.conn_ok then pure config
    else do
      let s2 ← Cfg.get
      pure (dictUpdate config s2.thingsboard)
  else pure config

/-- Step 2 of `_handle_general_configuration_update`: the statistics
sub-change.  The statistics dictionary inside the payload is the very
object `_apply_statistics_config` mutates, so its result is written
back into the payload; on failure the code then runs
`config['statistics'].update(self.general_configuration['statistics'])`. -/
def general_statistics_step (env : Env) (config : JObj) : Cfg JObj := do
  let sp := jgetD config "statistics" (.obj default_statistics)
  let changed ← check_statistics_configuration_changes env sp
  if changed then do
    let r ← apply_statistics_config env sp
    let config2 := if hasKey config "statistics" then jset config "statistics" r.2 else config
    if r.1 then pure config2
    else do
      let cs ← Cfg.liftE (pyIdxE (.obj config2) "statistics")
      let cso ← Cfg.liftE (asObjA cs)
      let s ← Cfg.get
      let gs ← Cfg.liftE (pyIdxE (.obj s.thingsboard) "statistics")
      let gso ← Cfg.liftE (asObjT gs)
      pure (jset config2 "statistics" (.obj (dictUpdate cso gso)))
  else pure config

/-- Step 3 of `_handle_general_configuration_update`: device filtering.
`_apply_device_filtering_config` initialises the service with
`config.get('deviceFiltering', {'enable': False})`, re-initialising
from the store and returning `False` on an exception; the caller then
reverts the payload field in place. -/
def general_device_filtering_step (env : Env) (config : JObj) : Cfg JObj := do
  let s ← Cfg.get
  if jgetD config "deviceFiltering" .null ≠ jgetD s.thingsboard "deviceFiltering" .null
  then do
    recordEvent (.initDeviceFiltering
      (jgetD config "deviceFiltering" (.obj [("enable", .bool false)])))
    if env.filter_init_ok then pure config
    else do
      let s2 ← Cfg.get
      recordEvent (.initDeviceFiltering
        (jgetD s2.thingsboard "deviceFiltering" (.obj [("enable", .bool false)])))
      let cd ← Cfg.liftE (pyIdxE (.obj config) "deviceFiltering")
      let cdo ← Cfg.liftE (asObjA cd)
      let gd ← Cfg.liftE (pyIdxE (.obj s2.thingsboard) "deviceFiltering")
      let gdo ← Cfg.liftE (asObjT gd)
      pure (jset config "deviceFiltering" (.obj (dictUpdate cdo gdo)))
  else pure config

/-- Step 4 of `_handle_general_configuration_update`: the Remote Shell
sub-change, same shape as step 3 with `config.get('remoteShell')`. -/
def general_remote_shell_step (env : Env) (config : JObj) : Cfg JObj := do
  let s ← Cfg.get
  if jgetD config "remoteShell" .null ≠ jgetD s.thingsboard "remoteShell" .null
  then do
    recordEvent (.initRemoteShell (jgetD config "remoteShell" .null))
    if env.shell_init_ok then pure config
    else do
      let s2 ← Cfg.get
      recordEvent (.initRemoteShell (jgetD s2.thingsboard "remoteShell" .null))
      let cd ← Cfg.liftE (pyIdxE (.obj config) "remoteShell")
      let cdo ← Cfg.liftE (asObjA cd)
      let gd ← Cfg.liftE (pyIdxE (.obj s2.thingsboard) "remoteShell")
      let gdo ← Cfg.liftE (asObjT gd)
      pure (jset config "remoteShell" (.obj (dictUpdate cdo gdo)))
  else pure config

/-- The four sub-steps of `_handle_general_configuration_update`,
threading the payload dictionary through its in-place mutations. -/
def general_sub_steps (env : Env) (config : JObj) : Cfg JObj := do
  let c1 ← general_connection_step env config
  let c2 ← general_statistics_step env c1
  let c3 ← general_device_filtering_step env c2
  general_remote_shell_step env c3

/-- Step 5 and the commit of `_handle_general_configuration_update`:
`_apply_other_params_config` (which updates the same stored dictionary
the `general_configuration` setter then updates again), the
acknowledgement, `_cleanup` (`...['statistics'].pop('commands')`, a
`KeyError` when the merged statistics carry no `commands` key), and the
rewrite of the general configuration file. -/
def general_finalize (env : Env) (config : JObj) : Cfg Unit := do
  Cfg.modifyGW (fun s => { s with thingsboard := dictUpdate s.thingsboard config })
  Cfg.modifyGW (fun s => { s with thingsboard := dictUpdate s.thingsboard config })
  let s ← Cfg.get
  sendAttr (.str "general_configuration") (.obj s.thingsboard)
  let s2 ← Cfg.get
  let stats ← Cfg.liftE (pyIdxE (.obj s2.thingsboard) "statistics")
  match stats with
  | .obj so =>
      if hasKey so "commands" then
        Cfg.modifyGW (fun s3 => { s3 with
          thingsboard := jset s3.thingsboard "statistics" (.obj (jdel so "commands")) })
      else Cfg.throw .keyError
  | _ => Cfg.throw .attributeError
  let lf ← get_general_config_in_local_format
  writeFile (env.cp ++ "tb_gateway.json") lf

/-- `_handle_general_configuration_update(config)`. -/
def handle_general_configuration_update (env : Env) (config0 : JVal) : Cfg Unit := do
  let c0 ← Cfg.liftE (asObjT config0)
  let c4 ← general_sub_steps env c0
  general_finalize env c4

/-- Close every live connector instance (`available_connectors[n].close()`
for all names; closing is modelled as always succeeding). -/
def closeAllConnectors : Cfg Unit := do
  let s ← Cfg.get
  Cfg.modifyGW (fun s2 => { s2 with
    events := s2.events ++ s.available_connectors.map GEvent.closeConnector })

/-- The `try` body of `_handle_grpc_configuration_update`: initialise
the new GRPC service, close all connectors, reload and reconnect them. -/
def grpc_apply_new (env : Env) (config : JVal) : Cfg Unit := do
  recordEvent (.initGrpcService config)
  if env.grpc_init_ok then pure () else Cfg.throw .other
  closeAllConnectors
  let _ ← get_general_config_in_local_format
  recordEvent .loadConnectors
  recordEvent .connectWithConnectors

/-- The `except` clause of `_handle_grpc_configuration_update`: revert
to the stored GRPC configuration and reload connectors again. -/
def grpc_revert (oldGrpc : JObj) : Cfg Unit := do
  recordEvent (.initGrpcService (.obj oldGrpc))
  closeAllConnectors
  let _ ← get_general_config_in_local_format
  recordEvent .loadConnectors
  recordEvent .connectWithConnectors

/-- `_handle_grpc_configuration_update(config)`. -/
def handle_grpc_configuration_update (env : Env) (config : JVal) : Cfg Unit := do
  let s ← Cfg.get
  if config ≠ .obj s.grpc then do
    let ok ← Cfg.tryCatch (do grpc_apply_new env config; pure true)
      (fun _ => do grpc_revert s.grpc; pure false)
    if ok then do
      let go ← Cfg.liftE (asObjT config)
      Cfg.modifyGW (fun s2 => { s2 with grpc := dictUpdate s2.grpc go })
      let lf ← get_general_config_in_local_format
      writeFile (env.cp ++ "tb_gateway.json") lf
      let s3 ← Cfg.get
      sendAttr (.str "grpc_configuration") (.obj s3.grpc)
    else pure ()
  else pure ()

/-- `_handle_logs_configuration_update(config)`: apply the logging tree
(`dictConfig` may raise, by the oracle), install the remote handler,
persist and acknowledge; any failure is only logged. -/
def handle_logs_configuration_update (env : Env) (config : JVal) : Cfg Unit :=
  Cfg.tryCatch
    (do
      if env.logs_dictconfig_ok then pure () else Cfg.throw .other
      recordEvent .installRemoteLogHandler
      writeFile (env.cp ++ "logs.json") config
      sendAttr (.str "logs_configuration") config)
    (fun _ => pure ())

/-- `x in container` (Python membership; a non-container raises
`TypeError`). -/
def pyIn (x : JVal) (container : JVal) : Except PyErr Bool :=
  match container with
  | .arr xs => .ok (xs.contains x)
  | .obj o =>
      match x with
      | .str k => .ok (hasKey o k)
      | _ => .ok false
  | .str hs =>
      match x with
      | .str n => .ok (strContains hs n)
      | _ => .error .typeError
  | _ => .error .typeError

/-- The names of live connectors not present in the pushed set (the
`for` loop of `_handle_active_connectors_update`; `close()` is modelled
as succeeding, so every such name is marked for deletion). -/
def activeForDeletion : List JVal → JVal → Except PyErr (List JVal)
  | [], _ => .ok []
  | n :: ns, cfg => do
      let b ← pyIn n cfg
      let rest ← activeForDeletion ns cfg
      .ok (if b then rest else n :: rest)

/-- `_delete_connectors_from_config(connector_list)`: keep the entries
whose `name` is in the pushed set. -/
def filterConnectorsIn : List JObj → JVal → Except PyErr (List JObj)
  | [], _ => .ok []
  | c :: cs, cfg => do
      let n ← match jget c "name" with
        | some v => Except.ok v
        | none => Except.error PyErr.keyError
      let b ← pyIn n cfg
      let rest ← filterConnectorsIn cs cfg
      .ok (if b then c :: rest else rest)

/-- `_handle_active_connectors_update(config)`. -/
def handle_active_connectors_update (env : Env) (config : JVal) : Cfg Unit := do
  let s ← Cfg.get
  let dels ← Cfg.liftE (activeForDeletion s.available_connectors config)
  Cfg.modifyGW (fun s2 => { s2 with
    events := s2.events ++ dels.map GEvent.closeConnector })
  if dels ≠ [] then do
    Cfg.modifyGW (fun s2 => { s2 with
      available_connectors := s2.available_connectors.filter (fun n => ¬ dels.contains n) })
    let cs ← connectors_configuration
    let kept ← Cfg.liftE (filterConnectorsIn cs config)
    Cfg.modifyGW (fun s2 => { s2 with connectors := kept })
    let lf ← get_general_config_in_local_format
    writeFile (env.cp ++ "tb_gateway.json") lf
    Cfg.modifyGW (fun s2 => { s2 with active_connectors_attr := config })
  else pure ()
  sendAttr (.str "active_connectors") config

/-- `_handle_remote_logging_level_update(config)`: acknowledgement
only. -/
def handle_remote_logging_level_update (config : JVal) : Cfg Unit :=
  sendAttr (.str "RemoteLoggingLevel") config

/-- `list(filter(lambda item: item['name'] == config['name'], conns))`:
on a non-empty list the lambda indexes `config['name']` and every
entry's `'name'`, so a missing key raises `KeyError`. -/
def filterByName (conns : List JObj) (config : JObj) : Except PyErr (List JObj) :=
  if conns.isEmpty then .ok []
  else do
    let cn ← pyIdxE (.obj config) "name"
    if conns.all (fun c => (jget c "name").isSome) then
      .ok (conns.filter (fun c => jget c "name" = some cn))
    else .error .keyError

/-- `found_connector.update(connector_configuration)`: replace the first
stored entry carrying the given name (the alias the handler holds). -/
def replaceFirstByName : List JObj → JVal → JObj → List JObj
  | [], _, _ => []
  | c :: cs, n, fc2 =>
      if jget c "name" = some n then fc2 :: cs
      else c :: replaceFirstByName cs n fc2

/-- The summary dictionary `{'name', 'type', 'configuration'}` with
`key`/`class` added when truthy in the payload. -/
def connector_summary (config : JObj) (cname ctype cfn : JVal) : JObj :=
  let base := [("name", cname), ("type", ctype), ("configuration", cfn)]
  let base2 := if truthy (jgetD config "key" .null)
    then base ++ [("key", jgetD config "key" .null)] else base
  if truthy (jgetD config "class" .null)
  then base2 ++ [("class", jgetD config "class" .null)] else base2

/-- The summary-field comparison of the existing-connector branch
(short-circuit `or` over name/type/class/key/logLevel; reading
`logLevel` from a non-dictionary `configurationJson` raises
`AttributeError`). -/
def connector_summary_changed (fc config : JObj) (cname : JVal) : Except PyErr Bool :=
  if jgetD fc "name" .null ≠ cname then .ok true
  else do
    let ct ← pyIdxE (.obj config) "type"
    if jgetD fc "type" .null ≠ ct then .ok true
    else if jgetD fc "class" .null ≠ jgetD config "class" .null then .ok true
    else if jgetD fc "key" .null ≠ jgetD config "key" .null then .ok true
    else
      match jgetD fc "configurationJson" (.obj []) with
      | .obj fco => .ok (jgetD fco "logLevel" .null ≠ jgetD config "logLevel" .null)
      | _ => .error .attributeError

/-- The new-connector branch of
`_handle_connector_configuration_update`: build the summary entry, write
the connector file (backing up the incoming payload inside the `with`
block, after `configurationJson` is merged in place with
`logLevel`/`name`), append the summary, rewrite the general
configuration file and reload.  Returns the payload as mutated. -/
def connector_new_branch (env : Env) (config : JObj) (cfn : JVal) : Cfg JObj := do
  let cname ← Cfg.liftE (pyIdxE (.obj config) "name")
  let ctype ← Cfg.liftE (pyIdxE (.obj config) "type")
  let summary := connector_summary config cname ctype cfn
  let fs ← Cfg.liftE (asStrT cfn)
  writeFile (env.cp ++ fs) (.str "")
  let ll ← Cfg.liftE (pyIdxE (.obj config) "logLevel")
  let cj ← Cfg.liftE (pyIdxE (.obj config) "configurationJson")
  let cjo ← Cfg.liftE (asObjA cj)
  let cj2 := dictUpdate cjo [("logLevel", ll), ("name", cname)]
  let config2 := jset config "configurationJson" (.obj cj2)
  create_configuration_file_backup (.obj config2) fs
  writeFile (env.cp ++ fs) (.obj cj2)
  let _ ← connectors_configuration
  Cfg.modifyGW (fun s => { s with connectors := s.connectors ++ [summary] })
  let lf ← get_general_config_in_local_format
  writeFile (env.cp ++ "tb_gateway.json") lf
  recordEvent .loadConnectors
  recordEvent .connectWithConnectors
  pure config2

/-- The content-comparison block of the existing-connector branch: when
the on-disk file exists, load it, compare content keys (`hash(str(·))`)
with the incoming `configurationJson`, and back the on-disk data up
when they differ.  Returns the `changed` flag this block computes. -/
def connector_content_check (env : Env) (config : JObj) (fs : String) : Cfg Bool := do
  let s ← Cfg.get
  match lookupFile s.files (env.cp ++ fs) with
  | some dta => do
      let cj ← Cfg.liftE (pyIdxE (.obj config) "configurationJson")
      if env.ck dta ≠ env.ck cj then do
        create_configuration_file_backup dta fs
        pure true
      else pure false
  | none => pure false

/-- The summary-field block of the existing-connector branch: when a
summary field differs, rebuild the summary dictionary and update the
stored entry in place (`found_connector.update(...)`).  Returns whether
a summary field changed. -/
def connector_summary_update (env : Env) (config : JObj) (cfn : JVal)
    (fc : JObj) (cname : JVal) : Cfg Bool := do
  let sc ← Cfg.liftE (connector_summary_changed fc config cname)
  if sc then do
    let ctype ← Cfg.liftE (pyIdxE (.obj config) "type")
    Cfg.modifyGW (fun s2 => { s2 with
      connectors := replaceFirstByName s2.connectors cname
        (dictUpdate fc (connector_summary config cname ctype cfn)) })
    pure true
  else pure false

/-- The `if changed:` block of the existing-connector branch: rewrite
the connector file (open-for-write truncates first, `configurationJson`
is merged in place with `logLevel`/`name`), close and remove the live
instance (`available_connectors[...]` raises `KeyError` when it is not
live — after the file was already rewritten) and reload.  Returns the
payload as mutated. -/
def connector_apply_change (env : Env) (config : JObj) (fs : String)
    (cname : JVal) : Cfg JObj := do
  writeFile (env.cp ++ fs) (.str "")
  let ll ← Cfg.liftE (pyIdxE (.obj config) "logLevel")
  let cj ← Cfg.liftE (pyIdxE (.obj config) "configurationJson")
  let cjo ← Cfg.liftE (asObjA cj)
  let cj2 := dictUpdate cjo [("logLevel", ll), ("name", cname)]
  let config2 := jset config "configurationJson" (.obj cj2)
  writeFile (env.cp ++ fs) (.obj cj2)
  let s3 ← Cfg.get
  if s3.available_connectors.contains cname then do
    recordEvent (.closeConnector cname)
    Cfg.modifyGW (fun s4 => { s4 with
      available_connectors := s4.available_connectors.filter (fun n => n ≠ cname) })
    let _ ← get_general_config_in_local_format
    recordEvent .loadConnectors
    recordEvent .connectWithConnectors
    pure config2
  else Cfg.throw .keyError

/-- The existing-connector branch of
`_handle_connector_configuration_update`, composed of the three blocks
above in source order; when nothing changed the payload is returned
untouched and nothing is rewritten. -/
def connector_existing_branch (env : Env) (config : JObj) (cfn : JVal)
    (fc : JObj) (cname : JVal) : Cfg JObj := do
  let fs ← Cfg.liftE (asStrT cfn)
  let changed1 ← connector_content_check env config fs
  let sc ← connector_summary_update env config cfn fc cname
  if changed1 || sc then connector_apply_change env config fs cname
  else pure config

/-- The `try` body of `_handle_connector_configuration_update`. -/
def connector_handler_body (env : Env) (config0 : JVal) : Cfg Unit := do
  let cfn ← Cfg.liftE (pyIdxE config0 "configuration")
  let co ← Cfg.liftE (asObjT config0)
  let conns ← connectors_configuration
  let found ← Cfg.liftE (filterByName conns co)
  let config2 ←
    match found with
    | [] => connector_new_branch env co cfn
    | fc :: _ => do
        let cname ← Cfg.liftE (pyIdxE (.obj co) "name")
        connector_existing_branch env co cfn fc cname
  let cname2 ← Cfg.liftE (pyIdxE (.obj config2) "name")
  sendAttr cname2 (.obj config2)

/-- `_handle_connector_configuration_update(config)`: the whole body is
wrapped in `try/except Exception` that only logs. -/
def handle_connector_configuration_update (env : Env) (config : JVal) : Cfg Unit :=
  Cfg.tryCatch (connector_handler_body env config) (fun _ => pure ())

/-- First `fullmatch` in the ordered `self._handlers` table: six literal
patterns, then the catch-all `(?=\D*\d?).*` (whose lookahead always
succeeds and whose `.*` fullmatches exactly the names without a
newline). -/
def matchHandler (attr : String) : Option HandlerId :=
  if attr = "general_configuration" then some .general
  else if attr = "storage_configuration" then some .storage
  else if attr = "grpc_configuration" then some .grpc
  else if attr = "logs_configuration" then some .logs
  else if attr = "active_connectors" then some .activeConnectors
  else if attr = "RemoteLoggingLevel" then some .remoteLoggingLevel
  else if attr.data.all (fun c => c ≠ Char.ofNat 10) then some .connector
  else none

/-- Dispatch to the handler selected from the table. -/
def run_handler (env : Env) : HandlerId → JVal → Cfg Unit
  | .general => handle_general_configuration_update env
  | .storage => handle_storage_configuration_update env
  | .grpc => handle_grpc_configuration_update env
  | .logs => handle_logs_configuration_update env
  | .activeConnectors => handle_active_connectors_update env
  | .remoteLoggingLevel => handle_remote_logging_level_update
  | .connector => handle_connector_configuration_update env

/-- The body of one iteration of the dispatcher's key loop: skip
tombstone keys, skip unmodified payloads, otherwise invoke the first
matching handler (recording the invocation in the ghost field). -/
def process_key (env : Env) (attr : String) (payload : JVal) : Cfg Unit := do
  if strContains attr "deleted" then pure ()
  else do
    let m ← Cfg.liftE (is_modified env attr payload)
    if m then
      match matchHandler attr with
      | some h => do
          Cfg.modifyGW (fun s => { s with invocations := s.invocations ++ [(h, attr)] })
          run_handler env h payload
      | none => pure ()
    else pure ()

/-- The `for attr_name in config.keys()` loop of
`process_config_request`. -/
def process_keys (env : Env) : List (String × JVal) → Cfg Unit
  | [] => pure ()
  | (attr, payload) :: rest => do
      process_key env attr payload
      process_keys env rest

/-- The `finally` clause: reset `self.in_process` whether the guarded
block completed or raised, re-raising in the latter case. -/
def finallyResetFlag (body : Cfg Unit) : Cfg Unit := fun s =>
  match body s with
  | (.ok a, s') => (.ok a, { s' with in_process := false })
  | (.error e, s') => (.error e, { s' with in_process := false })

/-- `RemoteConfigurator.process_config_request(config)`: single-flight
guard, key loop under `try / except (KeyError, AttributeError) /
finally`.  Python dictionaries iterate in insertion order, so the batch
is a list of key/payload pairs. -/
def process_config_request (env : Env) (config : List (String × JVal)) : Cfg Unit := do
  let s ← Cfg.get
  if ¬ s.in_process then do
    Cfg.modifyGW (fun s2 => { s2 with in_process := true })
    finallyResetFlag
      (Cfg.tryCatch (process_keys env config)
        (fun e =>
          match e with
          | .keyError => pure ()
          | .attributeError => pure ()
          | e2 => Cfg.throw e2))
  else pure ()

/-- The external behaviour `_apply_connection_config`'s polling loop
races against: whether `disconnect()`/the `TBClient` constructor or a
`connect()` call raises, what `is_connected()` reports for a client
(`true` = the new candidate, `false` = the old client) at a given time
(milliseconds since `apply_start`), and how long a `connect()` call
takes; `sleep(.1)` advances time by 100 ms. -/
structure ConnEnv where
  disconnectRaises : Bool
  constructRaises : Bool
  connectRaises : Bool → Bool
  isConnected : Bool → Nat → Bool
  connectTime : Nat

/-- The inner polling loop
`while time() * 1000 - apply_start >= 1000 and not connection_state:`
with explicit fuel: `none` means the fuel ran out with the loop still
running, `some (state, t)` that the loop exited with that
`connection_state` at time `t`.  Once 1000 ms have elapsed the guard
stays true, so the loop exits only when `is_connected()` reports
true. -/
def connInnerPoll (E : ConnEnv) (c : Bool) : Nat → Nat → Option (Bool × Nat)
  | 0, _ => none
  | f + 1, t =>
      if 1000 ≤ t then
        let st := E.isConnected c t
        let t2 := t + 100
        if st then some (true, t2) else connInnerPoll E c f t2
      else some (false, t)

/-- One `for client in (new_tb_client, old_tb_client)` body:
`Sum.inl r` means `_apply_connection_config` returns `r` (`some true` =
client adopted, `some false` = an exception led to
`_revert_connection` and `return False`, `none` = fuel exhausted),
`Sum.inr t` that the iteration fell through at time `t`. -/
def connClientStep (E : ConnEnv) (f : Nat) (c : Bool) (t : Nat) : Sum (Option Bool) Nat :=
  if E.connectRaises c then Sum.inl (some false)
  else
    match connInnerPoll E c f (t + E.connectTime) with
    | none => Sum.inl none
    | some (true, _) => Sum.inl (some true)
    | some (false, t2) => Sum.inr t2

/-- The outer `while not connection_state:` loop over the client pair,
with explicit fuel. -/
def connOuter (E : ConnEnv) : Nat → Nat → Option Bool
  | 0, _ => none
  | f + 1, t =>
      match connClientStep E f true t with
      | .inl r => r
      | .inr t1 =>
          match connClientStep E f false t1 with
          | .inl r => r
          | .inr t2 => connOuter E f t2

/-- `_apply_connection_config(config)` as a fuelled loop over the
external behaviour `E`: `some true` = a candidate was adopted,
`some false` = an exception triggered `_revert_connection` and
`return False`, `none` = the given fuel was exhausted with the loops
still running (the call had not returned). -/
def apply_connection_config_loop (E : ConnEnv) (fuel : Nat) : Option Bool :=
  if E.disconnectRaises || E.constructRaises then some false
  else connOuter E fuel 0


-- ============================================================
-- Concrete fixtures for witnesses and counterexamples
-- ============================================================

/-- A baseline environment for concrete runs: empty config directory view,
all external initialisations succeed, storage construction fails. -/
def envA : Env :=
  { cp := "cfg/", mt := fun _ => none, ck := fun _ => 0,
    mk_storage := fun _ => .error .other,
    conn_ok := true, stats_init_ok := true, filter_init_ok := true,
    shell_init_ok := true, grpc_init_ok := true, logs_dictconfig_ok := true }

/-- A baseline world: a stored general configuration with connection fields,
statistics without a commands list, no connectors, no files. -/
def gwA : GW :=
  { in_process := false,
    thingsboard := [("host", .str "a"), ("port", .num 1883), ("security", .obj []),
                    ("qos", .num 1),
                    ("statistics", .obj [("enable", .bool true),
                                         ("statsSendPeriodInSeconds", .num 3600)])],
    storage := [("type", .str "memory")],
    grpc := [("enabled", .bool false)],
    connectors := [], active_connectors_attr := .null, available_connectors := [],
    event_storage := 0, files := [], backups := [], acks := [], events := [],
    invocations := [] }

/-- A two-key batch whose first payload lacks the mandatory `host` field. -/
def c1_batch : List (String × JVal) :=
  [("general_configuration", .obj [("port", .num 1)]),
   ("storage_configuration", .obj [("type", .str "memory")])]

/-- The world after the first key of `c1_batch` has been processed (its
handler raised `KeyError` at `config['host']`). -/
def c1_mid : GW :=
  (Cfg.run (process_key envA "general_configuration" (.obj [("port", .num 1)]))
    { gwA with in_process := true }).2

def envB : Env := { envA with mt := fun p => if p = "cfg/logs.json" then some 500 else none }

def envC : Env := { envA with mt := fun p => if p = "cfg/mqtt.json" then some 500 else none }

def envC4 : Env := { envA with conn_ok := false }

def c4_payload : JObj :=
  [("host", .str "b"), ("port", .num 1883), ("security", .obj []), ("qos", .num 1),
   ("minPackSendDelayMS", .num 200)]

def gwC4 : GW := { gwA with
  thingsboard := [("host", .str "a"), ("port", .num 1883), ("security", .obj []),
                  ("qos", .num 1), ("minPackSendDelayMS", .num 100)] }

/-- The payload as left by the failing connection sub-step on the concrete
C4 inputs. -/
def c4_result_cfg : JObj :=
  match (Cfg.run (general_connection_step envC4 c4_payload) gwC4).1 with
  | .ok c => c
  | .error _ => []

def connEnvNever : ConnEnv :=
  { disconnectRaises := false, constructRaises := false,
    connectRaises := fun _ => false, isConnected := fun _ _ => false, connectTime := 100 }

/-- A well-formed general-configuration payload whose statistics carry no
`commands` key. -/
def c8_payload_nc : JVal :=
  .obj [("host", .str "a"), ("port", .num 1883), ("security", .obj []), ("qos", .num 1),
        ("statistics", .obj [("enable", .bool true), ("statsSendPeriodInSeconds", .num 3600)])]

/-- The same payload with an (empty) `commands` list present. -/
def c8_payload_wc : JObj :=
  [("host", .str "a"), ("port", .num 1883), ("security", .obj []), ("qos", .num 1),
   ("statistics", .obj [("enable", .bool true), ("statsSendPeriodInSeconds", .num 3600),
                        ("commands", .arr [])])]

def c8_stats_so : JObj :=
  [("enable", .bool true), ("statsSendPeriodInSeconds", .num 3600), ("commands", .arr [])]

def envS : Env := { envA with mk_storage := fun _ => .ok 7 }

/-- The world after one `_handle_connector_configuration_update` call
(`applyConnectorUpdate` of the specification). -/
def run_connector_update (env : Env) (config : JVal) (st : GW) : GW :=
  (Cfg.run (handle_connector_configuration_update env config) st).2

/-- The `name` values of the stored connector entries, in order. -/
def connector_names (l : List JObj) : List (Option JVal) :=
  l.map (fun c => jget c "name")

/-- Every stored connector entry carries a `name`, and no two entries
share one. -/
def namesOk (l : List JObj) : Prop :=
  (connector_names l).Nodup ∧ ∀ x ∈ connector_names l, x.isSome

/-- A sequence of connector add/update operations, applied in order. -/
def apply_connector_updates (env : Env) (ps : List JVal) (st : GW) : GW :=
  ps.foldl (fun s p => run_connector_update env p s) st

/-- A concrete content key for witnesses (stands for `hash(str(.))`). -/
def ckLen : JVal → Int
  | .obj o => o.length
  | _ => 0

def envK : Env := { envA with ck := ckLen }

def connK : JObj :=
  [("name", .str "C1"), ("type", .str "mqtt"), ("configuration", .str "mqtt.json"),
   ("configurationJson", .obj [("logLevel", .str "INFO")])]

def gwK1 : GW := { gwA with
  connectors := [connK]
  files := [("cfg/mqtt.json", .obj [("a", .num 1)])] }

def coK1 : JObj :=
  [("name", .str "C1"), ("type", .str "mqtt"), ("configuration", .str "mqtt.json"),
   ("logLevel", .str "INFO"), ("configurationJson", .obj [])]

def gwK2 : GW := { gwA with
  connectors := [connK]
  files := [("cfg/mqtt.json", .obj [("logLevel", .str "INFO")])] }

def coK2 : JObj :=
  [("name", .str "C1"), ("type", .str "mqtt"), ("configuration", .str "mqtt.json"),
   ("logLevel", .str "INFO"), ("configurationJson", .obj [("logLevel", .str "INFO")])]

-- ============================================================
-- Supporting lemmas
-- ============================================================

theorem run_finallyResetFlag (body : Cfg Unit) (s : GW) :
    Cfg.run (finallyResetFlag body) s =
      match Cfg.run body s with
      | (.ok a, s') => (.ok a, { s' with in_process := false })
      | (.error e, s') => (.error e, { s' with in_process := false }) := by
  show (match Cfg.run body s with
        | (.ok a, s') => ((.ok a, { s' with in_process := false }) : Except PyErr Unit × GW)
        | (.error e, s') => (.error e, { s' with in_process := false })) = _
  rcases Cfg.run body s with ⟨a | e, s'⟩ <;> rfl

theorem finallyResetFlag_flag (body : Cfg Unit) (s : GW) :
    (Cfg.run (finallyResetFlag body) s).2.in_process = false := by
  rw [run_finallyResetFlag]
  rcases Cfg.run body s with ⟨a | e, s'⟩ <;> rfl

theorem lookupFile_setFile (files : List (String × JVal)) (p : String) (v : JVal) :
    lookupFile (setFile files p v) p = some v := by
  simp [lookupFile, setFile, List.find?]

theorem run_handle_connector_state (env : Env) (cfg : JVal) (st : GW) :
    (Cfg.run (handle_connector_configuration_update env cfg) st).2 =
      (Cfg.run (connector_handler_body env cfg) st).2 := by
  unfold handle_connector_configuration_update
  rw [Cfg.run_tryCatch]
  rcases Cfg.run (connector_handler_body env cfg) st with ⟨a | e, s'⟩ <;> rfl

theorem run_local_format (s : GW) :
    Cfg.run get_general_config_in_local_format s =
      match projectConnectors (s.connectors.map stripConnector) with
      | .ok pcs =>
          (.ok (.obj [("thingsboard", .obj s.thingsboard), ("storage", .obj s.storage),
                      ("grpc", .obj s.grpc), ("connectors", .arr pcs)]),
           { s with connectors := s.connectors.map stripConnector })
      | .error e => (.error e, { s with connectors := s.connectors.map stripConnector }) := by
  unfold get_general_config_in_local_format connectors_configuration
  rcases hp : projectConnectors (s.connectors.map stripConnector) with e | pcs <;>
    simp [Cfg.run_bind, Cfg.run_get, Cfg.run_modifyGW, Cfg.run_liftE, Cfg.run_pure, hp]

theorem run_content_check_differ (env : Env) (co : JObj) (fs : String) (st : GW)
    (cjo : JObj) (D : JVal)
    (h5 : jget co "configurationJson" = some (.obj cjo))
    (h7 : lookupFile st.files (env.cp ++ fs) = some D)
    (hck : env.ck D ≠ env.ck (.obj cjo)) :
    Cfg.run (connector_content_check env co fs) st =
      (.ok true, { st with backups := st.backups ++ [(fs, D)] }) := by
  unfold connector_content_check
  simp [Cfg.run_bind, Cfg.run_get, h7, Cfg.run_liftE, pyIdxE, h5, hck,
    create_configuration_file_backup, Cfg.run_modifyGW, Cfg.run_pure]

theorem run_content_check_same (env : Env) (co : JObj) (fs : String) (st : GW)
    (cjo : JObj) (D : JVal)
    (h5 : jget co "configurationJson" = some (.obj cjo))
    (h7 : lookupFile st.files (env.cp ++ fs) = some D)
    (hck : env.ck D = env.ck (.obj cjo)) :
    Cfg.run (connector_content_check env co fs) st = (.ok false, st) := by
  unfold connector_content_check
  simp [Cfg.run_bind, Cfg.run_get, h7, Cfg.run_liftE, pyIdxE, h5, hck, Cfg.run_pure]

theorem run_summary_update (env : Env) (co : JObj) (cfn : JVal) (fc : JObj)
    (cname tp : JVal) (st : GW) (sb : Bool)
    (h3 : jget co "type" = some tp)
    (h8 : connector_summary_changed fc co cname = .ok sb) :
    Cfg.run (connector_summary_update env co cfn fc cname) st =
      (.ok sb,
       if sb then
         { st with connectors := (replaceFirstByName st.connectors cname
             (dictUpdate fc (connector_summary co cname tp cfn))) }
       else st) := by
  unfold connector_summary_update
  cases sb <;>
    simp [Cfg.run_bind, Cfg.run_liftE, h8, pyIdxE, h3, Cfg.run_modifyGW, Cfg.run_pure]

theorem run_apply_change (env : Env) (co : JObj) (fs : String) (cname : JVal)
    (st : GW) (ll : JVal) (cjo : JObj)
    (h4 : jget co "logLevel" = some ll)
    (h5 : jget co "configurationJson" = some (.obj cjo)) :
    (Cfg.run (connector_apply_change env co fs cname) st).2.backups = st.backups ∧
    lookupFile (Cfg.run (connector_apply_change env co fs cname) st).2.files (env.cp ++ fs) =
      some (.obj (dictUpdate cjo [("logLevel", ll), ("name", cname)])) := by
  unfold connector_apply_change
  rcases hpc : projectConnectors (List.map stripConnector st.connectors) with e | pcs <;>
    by_cases hav : cname ∈ st.available_connectors <;>
    simp [Cfg.run_bind, Cfg.run_liftE, Cfg.run_get, Cfg.run_modifyGW, Cfg.run_pure,
      Cfg.run_throw, pyIdxE, h4, h5, asObjA, writeFile, recordEvent, run_local_format,
      hpc, hav, lookupFile_setFile]

theorem run_existing_branch_proj (env : Env) (co : JObj) (f : String) (nm tp ll : JVal)
    (cjo fc : JObj) (D : JVal) (sb : Bool) (st1 : GW)
    (h3 : jget co "type" = some tp)
    (h4 : jget co "logLevel" = some ll)
    (h5 : jget co "configurationJson" = some (.obj cjo))
    (h7 : lookupFile st1.files (env.cp ++ f) = some D)
    (h8 : connector_summary_changed fc co nm = .ok sb) :
    (env.ck D ≠ env.ck (.obj cjo) →
      (Cfg.run (connector_existing_branch env co (.str f) fc nm) st1).2.backups =
        st1.backups ++ [(f, D)] ∧
      lookupFile (Cfg.run (connector_existing_branch env co (.str f) fc nm) st1).2.files
        (env.cp ++ f) = some (.obj (dictUpdate cjo [("logLevel", ll), ("name", nm)]))) ∧
    (env.ck D = env.ck (.obj cjo) → sb = false →
      Cfg.run (connector_existing_branch env co (.str f) fc nm) st1 = (.ok co, st1)) := by
  constructor
  · intro hck
    have hcc := run_content_check_differ env co f st1 cjo D h5 h7 hck
    unfold connector_existing_branch
    cases sb
    · have hsu := run_summary_update env co (.str f) fc nm tp
        { st1 with backups := st1.backups ++ [(f, D)] } false h3 h8
      have hap := run_apply_change env co f nm
        { st1 with backups := st1.backups ++ [(f, D)] } ll cjo h4 h5
      simp only [Bool.false_eq_true, if_false] at hsu
      simp [Cfg.run_bind, Cfg.run_liftE, asStrT, hcc, hsu, hap.1, hap.2]
    · have hsu := run_summary_update env co (.str f) fc nm tp
        { st1 with backups := st1.backups ++ [(f, D)] } true h3 h8
      simp only [if_true] at hsu
      have hap := run_apply_change env co f nm
        { { st1 with backups := st1.backups ++ [(f, D)] } with connectors :=
          (replaceFirstByName { st1 with backups := st1.backups ++ [(f, D)] }.connectors nm
            (dictUpdate fc (connector_summary co nm tp (.str f)))) } ll cjo h4 h5
      simp [Cfg.run_bind, Cfg.run_liftE, asStrT, hcc, hsu, hap.1, hap.2]
  · intro hck hsb
    subst hsb
    have hcc := run_content_check_same env co f st1 cjo D h5 h7 hck
    have hsu := run_summary_update env co (.str f) fc nm tp st1 false h3 h8
    simp only [Bool.false_eq_true, if_false] at hsu
    unfold connector_existing_branch
    simp [Cfg.run_bind, Cfg.run_liftE, asStrT, hcc, hsu, Cfg.run_pure]

theorem run_body_existing (env : Env) (st : GW) (co : JObj) (f : String) (nm : JVal)
    (fc : JObj) (rest' : List JObj)
    (h1 : jget co "configuration" = some (.str f))
    (h2 : jget co "name" = some nm)
    (h6 : filterByName (st.connectors.map stripConnector) co = .ok (fc :: rest')) :
    Cfg.run (connector_handler_body env (.obj co)) st =
      Cfg.run (connector_existing_branch env co (.str f) fc nm >>= fun config2 =>
        Cfg.liftE (pyIdxE (.obj config2) "name") >>= fun cname2 =>
        sendAttr cname2 (.obj config2))
        { st with connectors := st.connectors.map stripConnector } := by
  unfold connector_handler_body connectors_configuration
  simp only [Cfg.run_bind, Cfg.run_liftE, Cfg.run_get, Cfg.run_modifyGW, Cfg.run_pure]
  simp [pyIdxE, h1, h2, asObjT, h6, Cfg.run_bind, Cfg.run_liftE]

theorem run_ack_frame (config2 : JObj) (s : GW) :
    (Cfg.run (Cfg.liftE (pyIdxE (.obj config2) "name") >>= fun cname2 =>
      sendAttr cname2 (.obj config2)) s).2.backups = s.backups ∧
    (Cfg.run (Cfg.liftE (pyIdxE (.obj config2) "name") >>= fun cname2 =>
      sendAttr cname2 (.obj config2)) s).2.files = s.files := by
  rcases hn : pyIdxE (.obj config2) "name" with e | v <;>
    simp [Cfg.run_bind, Cfg.run_liftE, hn, sendAttr, Cfg.run_modifyGW]

theorem jget_jdel_ne (o : JObj) (k k' : String) (h : k' ≠ k) :
    jget (jdel o k) k' = jget o k' := by
  induction o with
  | nil => rfl
  | cons p ps ih =>
      obtain ⟨a, b⟩ := p
      by_cases hak : a = k
      · have h1 : jdel ((a, b) :: ps) k = jdel ps k := by
          simp [jdel, List.filter_cons, hak]
        have hne : ¬ a = k' := by rw [hak]; exact fun hh => h hh.symm
        have h2 : jget ((a, b) :: ps) k' = jget ps k' := by
          simp [jget, List.find?_cons, hne]
        rw [h1, h2, ih]
      · have h1 : jdel ((a, b) :: ps) k = (a, b) :: jdel ps k := by
          simp [jdel, List.filter_cons, hak]
        by_cases hak' : a = k'
        · rw [h1]
          simp [jget, List.find?_cons, hak']
        · have h2 : jget ((a, b) :: jdel ps k) k' = jget (jdel ps k) k' := by
            simp [jget, List.find?_cons, hak']
          have h3 : jget ((a, b) :: ps) k' = jget ps k' := by
            simp [jget, List.find?_cons, hak']
          rw [h1, h2, h3, ih]

theorem jget_strip_name (c : JObj) : jget (stripConnector c) "name" = jget c "name" := by
  unfold stripConnector
  rw [jget_jdel_ne _ _ _ (by decide), jget_jdel_ne _ _ _ (by decide)]

theorem connector_names_strip (l : List JObj) :
    connector_names (l.map stripConnector) = connector_names l := by
  induction l with
  | nil => rfl
  | cons c cs ih =>
      show jget (stripConnector c) "name" :: connector_names (cs.map stripConnector) = _
      rw [jget_strip_name, ih]
      rfl

theorem namesOk_congr {l l' : List JObj} (h : connector_names l' = connector_names l) :
    namesOk l → namesOk l' := by
  unfold namesOk
  rw [h]
  exact id

theorem jget_jset_self (o : JObj) (k : String) (v : JVal) :
    jget (jset o k v) k = some v := by
  unfold jset
  by_cases hk : hasKey o k
  · rw [if_pos hk]
    induction o with
    | nil => simp [hasKey, jget] at hk
    | cons p ps ih =>
        obtain ⟨a, b⟩ := p
        by_cases hak : a = k
        · simp [jget, List.find?_cons, hak]
        · have hk' : hasKey ps k := by
            simp [hasKey, jget, List.find?_cons, hak] at hk
            simpa [hasKey, jget] using hk
          simp only [List.map_cons, if_neg hak]
          have := ih hk'
          simp [jget, List.find?_cons, hak]
          simpa [jget] using this
  · rw [if_neg hk]
    induction o with
    | nil => simp [jget, List.find?]
    | cons p ps ih =>
        obtain ⟨a, b⟩ := p
        have hak : ¬ a = k := by
          intro hh
          exact hk (by simp [hasKey, jget, List.find?_cons, hh])
        have hk' : ¬ hasKey ps k := by
          intro hh
          apply hk
          simp [hasKey, jget, List.find?_cons, hak] at hh ⊢
          simpa [hasKey, jget] using hh
        have := ih hk'
        simp only [List.cons_append]
        simp [jget, List.find?_cons, hak]
        simpa [jget] using this

theorem jget_cons (a : String) (b : JVal) (ps : JObj) (k : String) :
    jget ((a, b) :: ps) k = if a = k then some b else jget ps k := by
  by_cases hak : a = k <;> simp [jget, List.find?_cons, hak]

theorem jget_jset_ne (o : JObj) (k : String) (v : JVal) (k' : String) (h : k' ≠ k) :
    jget (jset o k v) k' = jget o k' := by
  unfold jset
  by_cases hk : hasKey o k
  · rw [if_pos hk]
    clear hk
    induction o with
    | nil => rfl
    | cons p ps ih =>
        obtain ⟨a, b⟩ := p
        simp only [List.map_cons]
        by_cases hak : a = k
        · have hne : ¬ k = k' := fun hh => h hh.symm
          have hne2 : ¬ a = k' := by rw [hak]; exact hne
          rw [if_pos hak, jget_cons, jget_cons, if_neg hne, if_neg hne2, ih]
        · rw [if_neg hak, jget_cons, jget_cons]
          by_cases hak' : a = k'
          · rw [if_pos hak', if_pos hak']
          · rw [if_neg hak', if_neg hak', ih]
  · rw [if_neg hk]
    clear hk
    induction o with
    | nil =>
        rw [show (([] : JObj) ++ [(k, v)]) = [(k, v)] from rfl, jget_cons,
          if_neg (fun hh => h hh.symm)]
    | cons p ps ih =>
        obtain ⟨a, b⟩ := p
        rw [List.cons_append, jget_cons, jget_cons]
        by_cases hak' : a = k'
        · rw [if_pos hak', if_pos hak']
        · rw [if_neg hak', if_neg hak', ih]

theorem connector_summary_shape (config : JObj) (cname ctype cfn : JVal) :
    ∃ tail : JObj, connector_summary config cname ctype cfn = ("name", cname) :: tail ∧
      ∀ p ∈ tail, p.1 ≠ "name" := by
  by_cases h1 : truthy (jgetD config "key" .null) <;>
    by_cases h2 : truthy (jgetD config "class" .null)
  · refine ⟨[("type", ctype), ("configuration", cfn), ("key", jgetD config "key" .null),
      ("class", jgetD config "class" .null)], by simp [connector_summary, h1, h2], ?_⟩
    intro p hp
    simp only [List.mem_cons, List.not_mem_nil, or_false] at hp
    rcases hp with rfl | rfl | rfl | rfl <;> simp
  · refine ⟨[("type", ctype), ("configuration", cfn), ("key", jgetD config "key" .null)],
      by simp [connector_summary, h1, h2], ?_⟩
    intro p hp
    simp only [List.mem_cons, List.not_mem_nil, or_false] at hp
    rcases hp with rfl | rfl | rfl <;> simp
  · refine ⟨[("type", ctype), ("configuration", cfn),
      ("class", jgetD config "class" .null)],
      by simp [connector_summary, h1, h2], ?_⟩
    intro p hp
    simp only [List.mem_cons, List.not_mem_nil, or_false] at hp
    rcases hp with rfl | rfl | rfl <;> simp
  · refine ⟨[("type", ctype), ("configuration", cfn)],
      by simp [connector_summary, h1, h2], ?_⟩
    intro p hp
    simp only [List.mem_cons, List.not_mem_nil, or_false] at hp
    rcases hp with rfl | rfl <;> simp

theorem jget_foldl_jset_no_name (l : JObj) (o : JObj)
    (h : ∀ p ∈ l, p.1 ≠ "name") :
    jget (List.foldl (fun acc p => jset acc p.1 p.2) o l) "name" = jget o "name" := by
  induction l generalizing o with
  | nil => rfl
  | cons p ps ih =>
      rw [List.foldl_cons, ih _ (fun q hq => h q (List.mem_cons_of_mem _ hq)),
        jget_jset_ne _ _ _ _ (Ne.symm (h p (List.mem_cons_self _ _)))]

theorem connector_summary_name (config : JObj) (cname ctype cfn : JVal) :
    jget (connector_summary config cname ctype cfn) "name" = some cname := by
  obtain ⟨tail, heq, hno⟩ := connector_summary_shape config cname ctype cfn
  rw [heq, jget_cons, if_pos rfl]

theorem jget_dictUpdate_summary_name (o : JObj) (config : JObj) (cname ctype cfn : JVal) :
    jget (dictUpdate o (connector_summary config cname ctype cfn)) "name" = some cname := by
  obtain ⟨tail, heq, hno⟩ := connector_summary_shape config cname ctype cfn
  rw [heq]
  unfold dictUpdate
  rw [List.foldl_cons, jget_foldl_jset_no_name _ _ hno, jget_jset_self]

theorem connector_names_replaceFirst (l : List JObj) (nm : JVal) (fc2 : JObj)
    (h : jget fc2 "name" = some nm) :
    connector_names (replaceFirstByName l nm fc2) = connector_names l := by
  induction l with
  | nil => rfl
  | cons c cs ih =>
      by_cases hc : jget c "name" = some nm
      · show connector_names (if jget c "name" = some nm then fc2 :: cs
          else c :: replaceFirstByName cs nm fc2) = _
        rw [if_pos hc]
        show jget fc2 "name" :: connector_names cs = jget c "name" :: connector_names cs
        rw [h, hc]
      · show connector_names (if jget c "name" = some nm then fc2 :: cs
          else c :: replaceFirstByName cs nm fc2) = _
        rw [if_neg hc]
        show jget c "name" :: connector_names (replaceFirstByName cs nm fc2) =
          jget c "name" :: connector_names cs
        rw [ih]

theorem namesOk_append (l : List JObj) (e : JObj) (cn : JVal)
    (he : jget e "name" = some cn)
    (hnot : ¬ some cn ∈ connector_names l)
    (h : namesOk l) : namesOk (l ++ [e]) := by
  obtain ⟨hnd, hsome⟩ := h
  have hnames : connector_names (l ++ [e]) = connector_names l ++ [jget e "name"] := by
    simp [connector_names]
  constructor
  · rw [hnames, he, List.nodup_append]
    refine ⟨hnd, List.nodup_singleton _, fun a ha hb => ?_⟩
    rw [List.mem_singleton] at hb
    exact hnot (hb ▸ ha)
  · intro x hx
    rw [hnames] at hx
    rcases List.mem_append.mp hx with hx | hx
    · exact hsome x hx
    · rw [List.mem_singleton] at hx
      rw [hx, he]
      rfl

theorem filterByName_nil_not_mem (conns : List JObj) (co : JObj) (cn : JVal)
    (hfil : filterByName conns co = .ok [])
    (hcn : jget co "name" = some cn) :
    ¬ some cn ∈ connector_names conns := by
  by_cases hemp : conns.isEmpty
  · rcases conns with _ | ⟨c, cs⟩
    · simp [connector_names]
    · simp at hemp
  · by_cases hall : conns.all (fun c => (jget c "name").isSome)
    · have heq : filterByName conns co =
          Except.ok (conns.filter (fun c => jget c "name" = some cn)) := by
        unfold filterByName
        rw [if_neg hemp]
        rw [show pyIdxE (.obj co) "name" = Except.ok cn by simp [pyIdxE, hcn]]
        show (if conns.all (fun c => (jget c "name").isSome) then
            Except.ok (conns.filter (fun c => jget c "name" = some cn))
          else Except.error PyErr.keyError) =
          Except.ok (conns.filter (fun c => jget c "name" = some cn))
        rw [if_pos hall]
      rw [heq] at hfil
      have hf : conns.filter (fun c => jget c "name" = some cn) = [] :=
        Except.ok.inj hfil
      intro hmem
      obtain ⟨c, hc, hcnm⟩ := List.mem_map.mp hmem
      have hcf : c ∈ conns.filter (fun c => jget c "name" = some cn) :=
        List.mem_filter.mpr ⟨hc, by simp [hcnm]⟩
      rw [hf] at hcf
      exact List.not_mem_nil c hcf
    · have heq : filterByName conns co = Except.error PyErr.keyError := by
        unfold filterByName
        rw [if_neg hemp]
        rw [show pyIdxE (.obj co) "name" = Except.ok cn by simp [pyIdxE, hcn]]
        show (if conns.all (fun c => (jget c "name").isSome) then
            Except.ok (conns.filter (fun c => jget c "name" = some cn))
          else Except.error PyErr.keyError) = Except.error PyErr.keyError
        rw [if_neg hall]
      rw [heq] at hfil
      exact absurd hfil (by simp)

theorem pyIdxE_obj_ok (o : JObj) (k : String) (v : JVal) :
    pyIdxE (.obj o) k = .ok v ↔ jget o k = some v := by
  unfold pyIdxE
  rcases hj : jget o k with _ | x <;> simp [hj]

theorem content_check_connectors (env : Env) (co : JObj) (fs : String) (st : GW) :
    ((Cfg.run (connector_content_check env co fs) st).2).connectors = st.connectors := by
  unfold connector_content_check
  rcases hl : lookupFile st.files (env.cp ++ fs) with _ | D
  · simp [Cfg.run_bind, Cfg.run_get, hl, Cfg.run_pure]
  · rcases hcj : pyIdxE (.obj co) "configurationJson" with e | cj
    · simp [Cfg.run_bind, Cfg.run_get, hl, Cfg.run_liftE, hcj]
    · simp only [Cfg.run_bind, Cfg.run_get, hl, Cfg.run_liftE, hcj]
      split <;>
        simp [create_configuration_file_backup, Cfg.run_modifyGW, Cfg.run_bind, Cfg.run_pure]

theorem summary_update_connector_names (env : Env) (co : JObj) (cfn : JVal)
    (fc : JObj) (cname : JVal) (st : GW) :
    connector_names ((Cfg.run (connector_summary_update env co cfn fc cname) st).2.connectors) =
      connector_names st.connectors := by
  unfold connector_summary_update
  rcases hsc : connector_summary_changed fc co cname with e | b
  · simp [Cfg.run_bind, Cfg.run_liftE, hsc]
  · cases b
    · simp [Cfg.run_bind, Cfg.run_liftE, hsc, Cfg.run_pure]
    · rcases ht : pyIdxE (.obj co) "type" with e | tp
      · simp [Cfg.run_bind, Cfg.run_liftE, hsc, ht]
      · simp only [Cfg.run_bind, Cfg.run_liftE, hsc, ht, if_true, Cfg.run_modifyGW,
          Cfg.run_pure]
        exact connector_names_replaceFirst _ _ _ (jget_dictUpdate_summary_name fc co cname tp cfn)

theorem apply_change_connector_names (env : Env) (co : JObj) (fs : String)
    (cname : JVal) (st : GW) :
    connector_names ((Cfg.run (connector_apply_change env co fs cname) st).2.connectors) =
      connector_names st.connectors := by
  unfold connector_apply_change
  rcases hll : pyIdxE (.obj co) "logLevel" with e | ll
  · simp [Cfg.run_bind, Cfg.run_liftE, writeFile, Cfg.run_modifyGW, hll]
  · rcases hcj : pyIdxE (.obj co) "configurationJson" with e | cj
    · simp [Cfg.run_bind, Cfg.run_liftE, writeFile, Cfg.run_modifyGW, hll, hcj]
    · rcases ho : asObjA cj with e | cjo
      · simp [Cfg.run_bind, Cfg.run_liftE, writeFile, Cfg.run_modifyGW, hll, hcj, ho]
      · by_cases hav : cname ∈ st.available_connectors
        · rcases hpc : projectConnectors
            (List.map stripConnector st.connectors) with e | pcs <;>
            simp [Cfg.run_bind, Cfg.run_liftE, writeFile, Cfg.run_modifyGW, hll, hcj, ho,
              Cfg.run_get, Cfg.run_pure, recordEvent, hav, run_local_format, hpc,
              connector_names_strip]
        · simp [Cfg.run_bind, Cfg.run_liftE, writeFile, Cfg.run_modifyGW, hll, hcj, ho,
            Cfg.run_get, Cfg.run_throw, hav]

theorem existing_branch_connector_names (env : Env) (co : JObj) (cfn : JVal)
    (fc : JObj) (cname : JVal) (st : GW) :
    connector_names ((Cfg.run (connector_existing_branch env co cfn fc cname) st).2.connectors) =
      connector_names st.connectors := by
  unfold connector_existing_branch
  rcases hfs : asStrT cfn with e | fs
  · simp [Cfg.run_bind, Cfg.run_liftE, hfs]
  · simp only [Cfg.run_bind, Cfg.run_liftE, hfs]
    rcases hr1 : Cfg.run (connector_content_check env co fs) st with ⟨r1, s1⟩
    have hc1 : s1.connectors = st.connectors := by
      have := content_check_connectors env co fs st
      rw [hr1] at this
      exact this
    rcases r1 with e1 | b1
    · simp only []
      rw [hc1]
    · simp only []
      rcases hr2 : Cfg.run (connector_summary_update env co cfn fc cname) s1 with ⟨r2, s2⟩
      have hc2 : connector_names s2.connectors = connector_names s1.connectors := by
        have := summary_update_connector_names env co cfn fc cname s1
        rw [hr2] at this
        exact this
      rcases r2 with e2 | b2
      · simp only []
        rw [hc2, hc1]
      · simp only []
        by_cases hch : (b1 || b2) = true
        · rw [if_pos hch]
          rcases hr3 : Cfg.run (connector_apply_change env co fs cname) s2 with ⟨r3, s3⟩
          have hc3 : connector_names s3.connectors = connector_names s2.connectors := by
            have := apply_change_connector_names env co fs cname s2
            rw [hr3] at this
            exact this
          simp only []
          rw [hc3, hc2, hc1]
        · rw [if_neg hch]
          simp only [Cfg.run_pure]
          rw [hc2, hc1]

theorem new_branch_connectors (env : Env) (co : JObj) (cfn : JVal) (st : GW) :
    ((Cfg.run (connector_new_branch env co cfn) st).2).connectors = st.connectors ∨
    ∃ cn tp, jget co "name" = some cn ∧
      ((Cfg.run (connector_new_branch env co cfn) st).2).connectors =
        ((st.connectors.map stripConnector) ++
          [connector_summary co cn tp cfn]).map stripConnector := by
  unfold connector_new_branch
  rcases hn : pyIdxE (.obj co) "name" with e | cn
  · left; simp [Cfg.run_bind, Cfg.run_liftE, hn]
  · rcases ht : pyIdxE (.obj co) "type" with e | tp
    · left; simp [Cfg.run_bind, Cfg.run_liftE, hn, ht]
    · rcases hfs : asStrT cfn with e | fs
      · left; simp [Cfg.run_bind, Cfg.run_liftE, hn, ht, hfs]
      · rcases hll : pyIdxE (.obj co) "logLevel" with e | ll
        · left
          simp [Cfg.run_bind, Cfg.run_liftE, hn, ht, hfs, hll, writeFile, Cfg.run_modifyGW]
        · rcases hcj : pyIdxE (.obj co) "configurationJson" with e | cj
          · left
            simp [Cfg.run_bind, Cfg.run_liftE, hn, ht, hfs, hll, hcj, writeFile,
              Cfg.run_modifyGW]
          · rcases ho : asObjA cj with e | cjo
            · left
              simp [Cfg.run_bind, Cfg.run_liftE, hn, ht, hfs, hll, hcj, ho, writeFile,
                Cfg.run_modifyGW]
            · right
              refine ⟨cn, tp, (pyIdxE_obj_ok _ _ _).mp hn, ?_⟩
              simp only [Cfg.run_bind, Cfg.run_liftE, hn, ht, hfs, hll, hcj, ho,
                writeFile, Cfg.run_modifyGW, Cfg.run_get, Cfg.run_pure,
                create_configuration_file_backup, recordEvent]
              unfold connectors_configuration
              simp only [Cfg.run_bind, Cfg.run_liftE, Cfg.run_get, Cfg.run_modifyGW,
                Cfg.run_pure]
              rw [run_local_format]
              rcases hpc : projectConnectors
                ((List.map stripConnector st.connectors ++
                  [connector_summary co cn tp cfn]).map stripConnector) with e | pcs <;>
                simp [hpc]

theorem ack_connectors (config2 : JObj) (s : GW) :
    ((Cfg.run (Cfg.liftE (pyIdxE (.obj config2) "name") >>= fun cname2 =>
      sendAttr cname2 (.obj config2)) s).2).connectors = s.connectors := by
  rcases hn : pyIdxE (.obj config2) "name" with e | v <;>
    simp [Cfg.run_bind, Cfg.run_liftE, hn, sendAttr, Cfg.run_modifyGW]

theorem body_names_ok (env : Env) (cfg : JVal) (st : GW) (h : namesOk st.connectors) :
    namesOk (((Cfg.run (connector_handler_body env cfg) st).2).connectors) := by
  unfold connector_handler_body
  rcases hcfn : pyIdxE cfg "configuration" with e | cfn
  · simp only [Cfg.run_bind, Cfg.run_liftE, hcfn]
    exact h
  · rcases cfg with _ | b | n | sg | xs | co
    case null => simp [pyIdxE] at hcfn
    case bool => simp [pyIdxE] at hcfn
    case num => simp [pyIdxE] at hcfn
    case str => simp [pyIdxE] at hcfn
    case arr => simp [pyIdxE] at hcfn
    case obj =>
    simp only [Cfg.run_bind, Cfg.run_liftE, hcfn, asObjT]
    unfold connectors_configuration
    simp only [Cfg.run_bind, Cfg.run_liftE, Cfg.run_get, Cfg.run_modifyGW, Cfg.run_pure]
    have h1 : namesOk (List.map stripConnector st.connectors) :=
      namesOk_congr (connector_names_strip st.connectors) h
    rcases hf : filterByName (List.map stripConnector st.connectors) co with e | found
    · simp only [hf]
      exact h1
    · simp only [hf]
      rcases found with _ | ⟨fc, rest'⟩
      · rcases hr : Cfg.run (connector_new_branch env co cfn)
          { st with connectors := List.map stripConnector st.connectors } with ⟨r, s2⟩
        have hchar := new_branch_connectors env co cfn
          { st with connectors := List.map stripConnector st.connectors }
        rw [hr] at hchar
        have h2 : namesOk s2.connectors := by
          rcases hchar with hs | ⟨cn, tp, hcn, hs⟩
          · have hs' : s2.connectors = List.map stripConnector st.connectors := hs
            rw [hs']
            exact h1
          · have hs' : s2.connectors =
                ((List.map stripConnector st.connectors).map stripConnector ++
                  [connector_summary co cn tp cfn]).map stripConnector := hs
            rw [hs']
            refine namesOk_congr (connector_names_strip _) ?_
            refine namesOk_append _ _ cn (connector_summary_name co cn tp cfn) ?_ ?_
            · rw [connector_names_strip]
              exact filterByName_nil_not_mem _ _ _ hf hcn
            · exact namesOk_congr (connector_names_strip _) h1
        rw [Cfg.run_bind, hr]
        rcases r with e2 | config2
        · exact h2
        · have hack := ack_connectors config2 s2
          show namesOk (((Cfg.run (Cfg.liftE (pyIdxE (.obj config2) "name") >>=
            fun cname2 => sendAttr cname2 (.obj config2)) s2)).2).connectors
          rw [hack]
          exact h2
      · rcases hnm : pyIdxE (.obj co) "name" with e | nm
        · simp only [Cfg.run_bind, Cfg.run_liftE, hnm]
          exact h1
        · simp only [Cfg.run_bind, Cfg.run_liftE, hnm]
          rcases hr : Cfg.run (connector_existing_branch env co cfn fc nm)
            { st with connectors := List.map stripConnector st.connectors } with ⟨r, s2⟩
          have h2 : namesOk s2.connectors := by
            have := existing_branch_connector_names env co cfn fc nm
              { st with connectors := List.map stripConnector st.connectors }
            rw [hr] at this
            have hnames : connector_names s2.connectors =
                connector_names (List.map stripConnector st.connectors) := this
            exact namesOk_congr hnames h1
          rcases r with e2 | config2
          · exact h2
          · rcases hn2 : pyIdxE (.obj config2) "name" with e3 | v3
            · simp only [hn2]
              exact h2
            · simp only [hn2, sendAttr, Cfg.run_modifyGW]
              exact h2

theorem run_connector_update_names (env : Env) (cfg : JVal) (st : GW)
    (h : namesOk st.connectors) :
    namesOk ((run_connector_update env cfg st).connectors) := by
  have heq : run_connector_update env cfg st =
      (Cfg.run (connector_handler_body env cfg) st).2 :=
    run_handle_connector_state env cfg st
  rw [heq]
  exact body_names_ok env cfg st h

-- ============================================================
-- The claims
-- ============================================================

/-- Claim C1, counterexample: in the concrete batch `c1_batch`, handling the
first key (`general_configuration`, payload without `host`) raises
`KeyError`; the dispatcher catches it at batch level and releases the
guard, but the second key's `storage_configuration` handler is never
invoked — the ghost invocation log holds only the first entry, refuting
"one bad key never aborts the rest of the batch". -/
theorem c1_failure_isolation_counterexample :
    (Cfg.run (process_config_request envA c1_batch) gwA).1 = .ok () ∧
    (Cfg.run (process_config_request envA c1_batch) gwA).2.invocations =
      [(HandlerId.general, "general_configuration")] ∧
    (Cfg.run (process_config_request envA c1_batch) gwA).2.in_process = false := by
  refine ⟨?_, ?_, ?_⟩ <;> rfl

/-- Claim C1, amended: an error raised while processing one key is caught
(and logged) at batch level only when it is a `KeyError` or
`AttributeError` — any other exception propagates to the caller — and in
either case the remaining keys of the batch are NOT processed: the final
state is exactly the state the failing key left behind, with the
in-process guard released. -/
theorem c1_error_aborts_batch (env : Env) (attr : String) (payload : JVal)
    (rest : List (String × JVal)) (st s2 : GW) (e : PyErr)
    (hflag : st.in_process = false)
    (hstep : Cfg.run (process_key env attr payload) { st with in_process := true } =
      (.error e, s2)) :
    Cfg.run (process_config_request env ((attr, payload) :: rest)) st =
      ((if e = .keyError ∨ e = .attributeError then .ok () else .error e),
        { s2 with in_process := false }) := by
  unfold process_config_request
  simp [Cfg.run_bind, Cfg.run_get, hflag, Cfg.run_modifyGW]
  rw [run_finallyResetFlag, Cfg.run_tryCatch]
  rw [show process_keys env ((attr, payload) :: rest) =
        process_key env attr payload >>= fun _ => process_keys env rest from rfl]
  rw [Cfg.run_bind, hstep]
  cases e <;> simp [Cfg.run_pure, Cfg.run_throw]

/-- Witness for C1 at the concrete batch `c1_batch`. -/
theorem c1_error_aborts_batch_witness :
    Cfg.run (process_config_request envA c1_batch) gwA =
      (.ok (), { c1_mid with in_process := false }) := by
  have h := c1_error_aborts_batch envA "general_configuration" (.obj [("port", .num 1)])
    [("storage_configuration", .obj [("type", .str "memory")])] gwA c1_mid .keyError
    rfl (by rfl)
  simpa using h

/-- Claim C2: single-flight.  A call made while `in_process` is set
returns with the world completely unchanged (no change detector, no
handler, no mutation); a call that does execute leaves `in_process`
false on return, whether the key loop completed or raised. -/
theorem c2_single_flight (env : Env) (config : List (String × JVal)) (st : GW) :
    (st.in_process = true → Cfg.run (process_config_request env config) st = (.ok (), st)) ∧
    (st.in_process = false →
      (Cfg.run (process_config_request env config) st).2.in_process = false) := by
  constructor
  · intro h
    unfold process_config_request
    simp [Cfg.run_bind, Cfg.run_get, h, Cfg.run_pure]
  · intro h
    unfold process_config_request
    simp [Cfg.run_bind, Cfg.run_get, h, Cfg.run_modifyGW]
    exact finallyResetFlag_flag _ _

/-- Witness for C2 at a busy and an idle world. -/
theorem c2_single_flight_witness :
    Cfg.run (process_config_request envA []) { gwA with in_process := true } =
      (.ok (), { gwA with in_process := true }) ∧
    (Cfg.run (process_config_request envA []) gwA).2.in_process = false :=
  ⟨(c2_single_flight envA [] { gwA with in_process := true }).1 rfl,
   (c2_single_flight envA [] gwA).2 rfl⟩

/-- Claim C3, code bug: when neither candidate client ever reports
connected and no call raises, `_apply_connection_config` neither
succeeds nor reverts within ANY fuel bound: the inner poll guard
`time()*1000 - apply_start >= 1000` stays true forever once reached, so
there is no timeout window and `_revert_connection` is unreachable on
that path, contradicting the claimed bounded-timeout revert. -/
theorem c3_connection_loop_never_reverts (E : ConnEnv)
    (hnc : ∀ c t, E.isConnected c t = false)
    (hcr : ∀ c, E.connectRaises c = false)
    (hd : E.disconnectRaises = false) (hco : E.constructRaises = false) :
    ∀ fuel, apply_connection_config_loop E fuel = none := by
  have hpoll_notrue : ∀ c f t t2, connInnerPoll E c f t ≠ some (true, t2) := by
    intro c f
    induction f with
    | zero => intro t t2 h; exact Option.noConfusion h
    | succ f ih =>
        intro t t2 h
        unfold connInnerPoll at h
        by_cases h1 : 1000 ≤ t
        · rw [if_pos h1, hnc, if_neg (by simp)] at h
          exact ih _ _ h
        · rw [if_neg h1] at h
          simp at h
  have hstep : ∀ f c t, connClientStep E f c t = Sum.inl none ∨
      ∃ t2, connClientStep E f c t = Sum.inr t2 := by
    intro f c t
    unfold connClientStep
    rw [hcr]
    simp only [Bool.false_eq_true, if_false]
    rcases hp : connInnerPoll E c f (t + E.connectTime) with _ | ⟨b, t2⟩
    · left; rfl
    · cases b
      · right; exact ⟨t2, rfl⟩
      · exact absurd hp (hpoll_notrue _ _ _ _)
  have houter : ∀ f t, connOuter E f t = none := by
    intro f
    induction f with
    | zero => intro t; rfl
    | succ f ih =>
        intro t
        show (match connClientStep E f true t with
              | .inl r => r
              | .inr t1 =>
                  match connClientStep E f false t1 with
                  | .inl r => r
                  | .inr t2 => connOuter E f t2) = none
        rcases hstep f true t with h1 | ⟨t1, h1⟩
        · simp only [h1]
        · simp only [h1]
          rcases hstep f false t1 with h2 | ⟨t2, h2⟩
          · simp only [h2]
          · simp only [h2]; exact ih t2
  intro fuel
  unfold apply_connection_config_loop
  rw [hd, hco]
  simp only [Bool.or_self, Bool.false_eq_true, if_false]
  exact houter fuel 0

/-- Witness for C3: a concrete never-connecting environment, fuel 50. -/
theorem c3_connection_loop_never_reverts_witness :
    apply_connection_config_loop connEnvNever 50 = none :=
  c3_connection_loop_never_reverts connEnvNever (fun _ _ => rfl) (fun _ => rfl) rfl rfl 50

/-- Claim C4, counterexample: with the connection change failing, the
incoming payload's non-connection field `minPackSendDelayMS` (200) is
overwritten with the stored value (100) by
`config.update(self.general_configuration)` — the revert is not scoped
to the connection fields. -/
theorem c4_scoped_revert_counterexample :
    (Cfg.run (general_connection_step envC4 c4_payload) gwC4).1 = .ok c4_result_cfg ∧
    jget c4_payload "minPackSendDelayMS" = some (.num 200) ∧
    jget c4_result_cfg "minPackSendDelayMS" = some (.num 100) :=
  ⟨rfl, rfl, rfl⟩

/-- Claim C4, amended: when the connection sub-step triggers and fails,
the whole incoming payload is updated with EVERY field of the
still-current general configuration (`dict.update` with the full stored
dictionary), so all keys the store carries — connection and
non-connection alike — are reverted; only payload keys absent from the
store survive. -/
theorem c4_connection_revert_overwrites_all (env : Env) (config : JObj) (st : GW)
    (hdiff : connection_changed config st.thingsboard = .ok true)
    (hconn : env.conn_ok = false) :
    Cfg.run (general_connection_step env config) st =
      (.ok (dictUpdate config st.thingsboard),
       { st with events := st.events ++ [.applyConnection false] }) := by
  unfold general_connection_step
  simp [Cfg.run_bind, Cfg.run_get, Cfg.run_liftE, hdiff, hconn, recordEvent,
    Cfg.run_modifyGW, Cfg.run_pure]

/-- Witness for C4 at the concrete inputs of the counterexample. -/
theorem c4_connection_revert_overwrites_all_witness :
    Cfg.run (general_connection_step envC4 c4_payload) gwC4 =
      (.ok (dictUpdate c4_payload gwC4.thingsboard),
       { gwC4 with events := gwC4.events ++ [.applyConnection false] }) :=
  c4_connection_revert_overwrites_all envC4 c4_payload gwC4 (by rfl) rfl

/-- Claim C5: storage swap-and-verify.  When constructing the new backend
raises, the handler restores the saved instance and the world is left
exactly as before — no config change, no file write, no
acknowledgement.  When construction succeeds, it installs the new
backend, merges the payload into the stored storage configuration,
rewrites the general configuration file and sends the
`storage_configuration` acknowledgement. -/
theorem c5_storage_swap_and_verify (env : Env) (config : JVal) (st : GW) :
    (∀ e, env.mk_storage config = .error e →
      Cfg.run (handle_storage_configuration_update env config) st = (.ok (), st)) ∧
    (∀ inst co pcs, env.mk_storage config = .ok inst → config = .obj co →
      projectConnectors (st.connectors.map stripConnector) = .ok pcs →
      Cfg.run (handle_storage_configuration_update env config) st =
        (.ok (), { st with
          event_storage := inst,
          storage := dictUpdate st.storage co,
          connectors := st.connectors.map stripConnector,
          files := setFile st.files (env.cp ++ "tb_gateway.json")
            (.obj [("thingsboard", .obj st.thingsboard),
                   ("storage", .obj (dictUpdate st.storage co)),
                   ("grpc", .obj st.grpc), ("connectors", .arr pcs)]),
          acks := st.acks ++
            [(.str "storage_configuration", .obj (dictUpdate st.storage co))] })) := by
  constructor
  · intro e hmk
    unfold handle_storage_configuration_update
    simp [Cfg.run_bind, Cfg.run_get, hmk, Cfg.run_modifyGW]
  · intro inst co pcs hmk hcfg hpcs
    subst hcfg
    unfold handle_storage_configuration_update get_general_config_in_local_format
      connectors_configuration
    simp [Cfg.run_bind, Cfg.run_get, Cfg.run_modifyGW, Cfg.run_liftE, Cfg.run_pure,
      hmk, asObjT, hpcs, writeFile, sendAttr]

/-- Witness for C5: a failing and a succeeding storage constructor. -/
theorem c5_storage_swap_and_verify_witness :
    Cfg.run (handle_storage_configuration_update envA (.obj [("type", .str "file")])) gwA =
      (.ok (), gwA) ∧
    Cfg.run (handle_storage_configuration_update envS (.obj [("type", .str "file")])) gwA =
      (.ok (), { gwA with
        event_storage := 7,
        storage := dictUpdate gwA.storage [("type", .str "file")],
        connectors := gwA.connectors.map stripConnector,
        files := setFile gwA.files (envS.cp ++ "tb_gateway.json")
          (.obj [("thingsboard", .obj gwA.thingsboard),
                 ("storage", .obj (dictUpdate gwA.storage [("type", .str "file")])),
                 ("grpc", .obj gwA.grpc), ("connectors", .arr [])]),
        acks := gwA.acks ++ [(.str "storage_configuration",
          .obj (dictUpdate gwA.storage [("type", .str "file")]))] }) :=
  ⟨(c5_storage_swap_and_verify envA (.obj [("type", .str "file")]) gwA).1 .other rfl,
   (c5_storage_swap_and_verify envS (.obj [("type", .str "file")]) gwA).2 7
     [("type", .str "file")] [] rfl rfl rfl⟩

/-- Claim C6: `_is_modified` returns `False` exactly when the attribute
resolves (via the payload's `configuration` field or the static table)
to an existing file whose modification time (ms) is at least the
payload's timestamp; it returns `True` whenever no file is resolvable
(e.g. `RemoteLoggingLevel` / `active_connectors` payloads) and whenever
the resolved file does not exist. -/
theorem c6_is_modified_characterisation (env : Env) (attr : String) (config : JVal) :
    (is_modified env attr config = .ok false ↔
      ∃ s m t, resolveConfigFile attr config = some (.str s) ∧
        env.mt (env.cp ++ s) = some m ∧ tsOf config = some t ∧ t ≤ (m : Int)) ∧
    (resolveConfigFile attr config = none → is_modified env attr config = .ok true) ∧
    (∀ s, resolveConfigFile attr config = some (.str s) →
      env.mt (env.cp ++ s) = none → is_modified env attr config = .ok true) := by
  unfold is_modified
  rcases hr : resolveConfigFile attr config with _ | fp
  · refine ⟨by simp, fun _ => rfl, ?_⟩
    intro s hs
    simp at hs
  · refine ⟨?_, by simp, ?_⟩
    · cases fp <;> simp
      case str s =>
        rcases hm : env.mt (env.cp ++ s) with _ | m
        · simp
        · rcases ht : tsOf config with _ | t
          · simp
          · simp only []
            split <;> simp_all
    · intro s hs hm
      rw [Option.some_inj] at hs
      subst hs
      simp [hm]

/-- Witness for C6: a fresh local `logs.json`, a `RemoteLoggingLevel`
string payload, and a missing file. -/
theorem c6_is_modified_characterisation_witness :
    is_modified envB "logs_configuration" (.obj [("ts", .num 400)]) = .ok false ∧
    is_modified envB "RemoteLoggingLevel" (.str "DEBUG") = .ok true ∧
    is_modified envB "Mqtt Connector" (.obj [("configuration", .str "missing.json")]) =
      .ok true := by
  refine ⟨?_, ?_, ?_⟩
  · exact ((c6_is_modified_characterisation envB "logs_configuration" (.obj [("ts", .num 400)])).1).mpr
      ⟨"logs.json", 500, 400, by decide, by decide, by decide, by decide⟩
  · exact (c6_is_modified_characterisation envB "RemoteLoggingLevel" (.str "DEBUG")).2.1 (by decide)
  · exact (c6_is_modified_characterisation envB "Mqtt Connector"
      (.obj [("configuration", .str "missing.json")])).2.2 "missing.json"
      (by decide) (by decide)

/-- Claim C7: backup-on-change.  For an update to an existing connector
whose on-disk file exists: if the stored `configurationJson` differs
from the incoming one under the content-key check, exactly one new
backup record is written, holding the pre-overwrite on-disk content,
and the file is overwritten; if they are equal and no summary field
changed, zero backups are written (and the files are untouched). -/
theorem c7_backup_on_change (env : Env) (st : GW) (co : JObj) (f : String) (nm tp ll : JVal)
    (cjo fc : JObj) (rest' : List JObj) (D : JVal) (sb : Bool)
    (h1 : jget co "configuration" = some (.str f))
    (h2 : jget co "name" = some nm)
    (h3 : jget co "type" = some tp)
    (h4 : jget co "logLevel" = some ll)
    (h5 : jget co "configurationJson" = some (.obj cjo))
    (h6 : filterByName (st.connectors.map stripConnector) co = .ok (fc :: rest'))
    (h7 : lookupFile st.files (env.cp ++ f) = some D)
    (h8 : connector_summary_changed fc co nm = .ok sb) :
    (env.ck D ≠ env.ck (.obj cjo) →
      (run_connector_update env (.obj co) st).backups = st.backups ++ [(f, D)] ∧
      lookupFile (run_connector_update env (.obj co) st).files (env.cp ++ f) =
        some (.obj (dictUpdate cjo [("logLevel", ll), ("name", nm)]))) ∧
    (env.ck D = env.ck (.obj cjo) → sb = false →
      (run_connector_update env (.obj co) st).backups = st.backups ∧
      (run_connector_update env (.obj co) st).files = st.files) := by
  have hstate : run_connector_update env (.obj co) st =
      (Cfg.run (connector_handler_body env (.obj co)) st).2 :=
    run_handle_connector_state env (.obj co) st
  rw [hstate, run_body_existing env st co f nm fc rest' h1 h2 h6]
  have h7' : lookupFile
      ({ st with connectors := st.connectors.map stripConnector } : GW).files
      (env.cp ++ f) = some D := h7
  have hproj := run_existing_branch_proj env co f nm tp ll cjo fc D sb
    { st with connectors := st.connectors.map stripConnector } h3 h4 h5 h7' h8
  rw [Cfg.run_bind]
  rcases hre : Cfg.run (connector_existing_branch env co (.str f) fc nm)
    { st with connectors := st.connectors.map stripConnector } with ⟨r, s2⟩
  rw [hre] at hproj
  constructor
  · intro hck
    have hp := hproj.1 hck
    rcases r with e | a
    · exact ⟨hp.1, hp.2⟩
    · have hfr := run_ack_frame a s2
      simp only []
      rw [hfr.1, hfr.2]
      exact ⟨hp.1, hp.2⟩
  · intro hck hsb
    have hp := hproj.2 hck hsb
    have hr : r = .ok co := congrArg Prod.fst hp
    have hs : s2 = { st with connectors := st.connectors.map stripConnector } :=
      congrArg Prod.snd hp
    subst hr
    have hfr := run_ack_frame co s2
    simp only []
    rw [hfr.1, hfr.2, hs]
    exact ⟨rfl, rfl⟩

/-- Witness for C7: a differing and an identical `configurationJson`. -/
theorem c7_backup_on_change_witness :
    ((run_connector_update envK (.obj coK1) gwK1).backups =
        gwK1.backups ++ [("mqtt.json", .obj [("a", .num 1)])] ∧
      lookupFile (run_connector_update envK (.obj coK1) gwK1).files "cfg/mqtt.json" =
        some (.obj (dictUpdate [] [("logLevel", .str "INFO"), ("name", .str "C1")]))) ∧
    ((run_connector_update envK (.obj coK2) gwK2).backups = gwK2.backups ∧
     (run_connector_update envK (.obj coK2) gwK2).files = gwK2.files) := by
  constructor
  · exact (c7_backup_on_change envK gwK1 coK1 "mqtt.json" (.str "C1") (.str "mqtt") (.str "INFO")
      [] (stripConnector connK) [] (.obj [("a", .num 1)]) false
      rfl rfl rfl rfl rfl rfl (by decide) rfl).1 (by decide)
  · exact (c7_backup_on_change envK gwK2 coK2 "mqtt.json" (.str "C1") (.str "mqtt") (.str "INFO")
      [("logLevel", .str "INFO")] (stripConnector connK) []
      (.obj [("logLevel", .str "INFO")]) false
      rfl rfl rfl rfl rfl rfl (by decide) rfl).2 (by decide) rfl

/-- Claim C8, counterexample: on a well-formed payload whose statistics
sub-object carries no `commands` key, `_cleanup`'s
`pop('commands')` raises `KeyError` after the acknowledgement was
already sent, and the configuration file is NOT rewritten — the claim
does not hold for every payload. -/
theorem c8_missing_commands_counterexample :
    (Cfg.run (handle_general_configuration_update envA c8_payload_nc) gwA).1 =
      .error .keyError ∧
    (Cfg.run (handle_general_configuration_update envA c8_payload_nc) gwA).2.files =
      gwA.files ∧
    (Cfg.run (handle_general_configuration_update envA c8_payload_nc) gwA).2.acks.length
      = 1 :=
  ⟨rfl, rfl, rfl⟩

/-- Claim C8, amended: whenever the four sub-steps complete with merged
payload `config`, and the merged statistics sub-object still carries a
`commands` key, the handler merges the payload into the stored general
configuration, sends the `general_configuration` acknowledgement (with
`commands` still present), strips the transient `commands` field from
the stored statistics, and rewrites the whole configuration to the
general configuration file. -/
theorem c8_general_commit (env : Env) (config0 : JVal) (c0 config : JObj) (st0 st : GW)
    (so : JObj) (pcs : List JVal)
    (hc0 : config0 = .obj c0)
    (hsub : Cfg.run (general_sub_steps env c0) st0 = (.ok config, st))
    (hstats : jget (dictUpdate (dictUpdate st.thingsboard config) config) "statistics" =
      some (.obj so))
    (hcmd : hasKey so "commands" = true)
    (hpcs : projectConnectors (st.connectors.map stripConnector) = .ok pcs) :
    Cfg.run (handle_general_configuration_update env config0) st0 =
      (.ok (), { st with
        thingsboard := jset (dictUpdate (dictUpdate st.thingsboard config) config)
          "statistics" (.obj (jdel so "commands")),
        connectors := st.connectors.map stripConnector,
        acks := st.acks ++
          [(.str "general_configuration", .obj (dictUpdate (dictUpdate st.thingsboard config) config))],
        files := setFile st.files (env.cp ++ "tb_gateway.json")
          (.obj [("thingsboard",
                   .obj (jset (dictUpdate (dictUpdate st.thingsboard config) config)
                     "statistics" (.obj (jdel so "commands")))),
                 ("storage", .obj st.storage),
                 ("grpc", .obj st.grpc), ("connectors", .arr pcs)]) }) := by
  subst hc0
  unfold handle_general_configuration_update
  rw [show (do
        let c0 ← Cfg.liftE (asObjT (JVal.obj c0))
        let c4 ← general_sub_steps env c0
        general_finalize env c4 : Cfg Unit) =
      (Cfg.liftE (asObjT (JVal.obj c0)) >>= fun c0 =>
        general_sub_steps env c0 >>= fun c4 => general_finalize env c4) from rfl]
  rw [Cfg.run_bind, Cfg.run_liftE]
  show Cfg.run (general_sub_steps env c0 >>= fun c4 => general_finalize env c4) st0 = _
  rw [Cfg.run_bind, hsub]
  unfold general_finalize get_general_config_in_local_format connectors_configuration
  simp [Cfg.run_bind, Cfg.run_get, Cfg.run_modifyGW, Cfg.run_liftE, Cfg.run_pure,
    sendAttr, writeFile, pyIdxE, hstats, hcmd, hpcs]

/-- Witness for C8 at the payload with a `commands` list. -/
theorem c8_general_commit_witness :
    Cfg.run (handle_general_configuration_update envA (.obj c8_payload_wc)) gwA =
      (.ok (), { gwA with
        thingsboard := jset (dictUpdate (dictUpdate gwA.thingsboard c8_payload_wc)
          c8_payload_wc) "statistics" (.obj (jdel c8_stats_so "commands")),
        connectors := gwA.connectors.map stripConnector,
        acks := gwA.acks ++ [(.str "general_configuration",
          .obj (dictUpdate (dictUpdate gwA.thingsboard c8_payload_wc) c8_payload_wc))],
        files := setFile gwA.files (envA.cp ++ "tb_gateway.json")
          (.obj [("thingsboard",
                   .obj (jset (dictUpdate (dictUpdate gwA.thingsboard c8_payload_wc)
                     c8_payload_wc) "statistics" (.obj (jdel c8_stats_so "commands")))),
                 ("storage", .obj gwA.storage),
                 ("grpc", .obj gwA.grpc), ("connectors", .arr [])]) }) :=
  c8_general_commit envA (.obj c8_payload_wc) c8_payload_wc c8_payload_wc gwA gwA
    c8_stats_so [] rfl rfl rfl rfl rfl

/-- Claim C9: starting from a connector list in which every entry has a
distinct name, after any sequence of connector add/update operations no
two entries share a name: a new entry is appended only when no existing
entry carries that name, and an update to an existing entry keeps its
name. -/
theorem c9_connector_name_uniqueness (env : Env) (ps : List JVal) (st : GW) (h : namesOk st.connectors) :
    namesOk ((apply_connector_updates env ps st).connectors) := by
  induction ps generalizing st with
  | nil => exact h
  | cons p ps ih => exact ih _ (run_connector_update_names env p st h)

/-- Witness for C9: two updates applied to a one-connector world. -/
theorem c9_connector_name_uniqueness_witness :
    namesOk ((apply_connector_updates envK [.obj coK1, .obj coK2] gwK1).connectors) :=
  c9_connector_name_uniqueness envK [.obj coK1, .obj coK2] gwK1 ⟨by decide, by decide⟩

/-- Claim C10: a payload for a file-backed attribute that carries no `ts`
field is treated as timestamp 0, so whenever the target file exists the
change detector reports unmodified and the dispatcher skips the key
without invoking any handler. -/
theorem c10_absent_ts_skips_update (env : Env) (attr : String) (o : JObj) (f : String) (m : Nat)
    (rest : List (String × JVal)) (st : GW)
    (hconf : jget o "configuration" = some (.str f)) (hf : f ≠ "")
    (hts : jget o "ts" = none)
    (hmt : env.mt (env.cp ++ f) = some m) :
    is_modified env attr (.obj o) = .ok false ∧
    Cfg.run (process_keys env ((attr, .obj o) :: rest)) st =
      Cfg.run (process_keys env rest) st := by
  have hres : resolveConfigFile attr (.obj o) = some (.str f) := by
    simp [resolveConfigFile, hconf, truthy, hf]
  have hmod : is_modified env attr (.obj o) = .ok false := by
    unfold is_modified
    rw [hres]
    simp [hmt, tsOf, hts]
  refine ⟨hmod, ?_⟩
  have hk : Cfg.run (process_key env attr (.obj o)) st = (.ok (), st) := by
    unfold process_key
    by_cases hd : strContains attr "deleted"
    · simp [hd, Cfg.run_pure]
    · simp [hd, hmod, Cfg.run_bind, Cfg.run_liftE, Cfg.run_pure]
  rw [show process_keys env ((attr, .obj o) :: rest) =
        process_key env attr (.obj o) >>= fun _ => process_keys env rest from rfl,
      Cfg.run_bind, hk]

/-- Witness for C10: a `ts`-less payload over an existing `mqtt.json`. -/
theorem c10_absent_ts_skips_update_witness :
    is_modified envC "Mqtt" (.obj [("configuration", .str "mqtt.json")]) = .ok false ∧
    Cfg.run (process_keys envC [("Mqtt", .obj [("configuration", .str "mqtt.json")])]) gwA =
      Cfg.run (process_keys envC []) gwA := by
  have h := c10_absent_ts_skips_update envC "Mqtt" [("configuration", .str "mqtt.json")] "mqtt.json" 500 [] gwA
    rfl (by decide) rfl (by decide)
  exact ⟨h.1, h.2⟩
